import Mathlib

/-!
Verification development for the job-risk analyzer
(`src/job_api_integration.py` and `src/job_api_integration_updated.py`).

The embedding models Python dictionaries as association lists of `JVal`
values, Python numbers (ints, floats and bools in numeric position) as
integers and rationals, and a raised Python exception as `Except.error`.
The definitions mirror the source functions step by step; line numbers in
the doc comments refer to `src/job_api_integration.py` unless stated
otherwise.
-/

set_option maxHeartbeats 1000000

/-- A Python value as it occurs in the literal job-data dictionaries:
strings, ints, floats (modelled as rationals), booleans, `None`, lists and
string-keyed dicts (modelled as association lists in insertion order). -/
inductive JVal where
  | s (v : String)
  | i (v : Int)
  | q (v : ℚ)
  | b (v : Bool)
  | none
  | arr (vs : List JVal)
  | obj (fields : List (String × JVal))

/-- A Python dict with string keys, in insertion order. -/
abbrev PyDict := List (String × JVal)

/-- Embeds Python `d.get(k, default)` on a dict: the value of the first
matching key, else the default. -/
def dictGet (d : PyDict) (k : String) (default : JVal) : JVal :=
  match d.find? (fun p => p.1 = k) with
  | Option.some p => p.2
  | Option.none => default

/-- Embeds Python `k in d` / `d[k]` lookup on a dict as an optional value. -/
def dictFind (d : PyDict) (k : String) : Option JVal :=
  (d.find? (fun p => p.1 = k)).map (fun p => p.2)

/-- Embeds the Python substring test `needle in hay` on strings. -/
def pyIn (needle hay : String) : Bool :=
  decide (List.IsInfix needle.data hay.data)

/-- The numeric reading of a `JVal` when Python would compare it with an
int without raising: ints, floats, and bools (which are ints 0/1 in
Python). Strings, `None`, lists and dicts have no numeric reading; a
comparison with them raises `TypeError`. -/
def jnum : JVal → Option ℚ
  | JVal.i n => Option.some (n : ℚ)
  | JVal.q x => Option.some x
  | JVal.b v => Option.some (if v then 1 else 0)
  | _ => Option.none

/-- Embeds Python `s.lower()`: lower-case every character. -/
def pyLower (s : String) : String :=
  String.mk (s.data.map Char.toLower)

/-- Embeds `occ_code.split('-')[0]` (line 1733): the SOC major group, i.e.
the text before the first `-` (the whole string when there is none). -/
def socMajorGroup (occ_code : String) : String :=
  String.mk (occ_code.data.takeWhile (fun c => c ≠ '-'))

/-- Embeds `generate_analysis_text` (lines 1898-1919). The
`risk_factors`/`protective_factors` arguments are accepted and ignored,
exactly as in the source. -/
def generate_analysis_text (job_title : String) (risk_category : String)
    (risk_factors : List String) (protective_factors : List String) : String :=
  if risk_category = "Very High" then
    job_title ++ "s face extremely high displacement risk as AI and automation technologies advance rapidly. Within 5 years, most routine aspects of this role may be automated."
  else if risk_category = "High" then
    job_title ++ "s face significant displacement risk, though roles requiring complex judgment and specialized skills will be more resilient to automation."
  else if risk_category = "Moderate" then
    job_title ++ "s face moderate automation risk. While some aspects of the role may be automated, human expertise will remain valuable, especially for complex tasks."
  else
    job_title ++ "s have relatively low displacement risk due to the complexity, creativity, or human elements required in this role. Technology will likely augment rather than replace these positions."

/-- The result of the base growth-bucket assessment, lines 1700-1730:
the local variables set by the five-way `if`/`elif` on `percent_change`. -/
structure BaseAssessment where
  year_1_risk : ℚ
  year_5_risk : ℚ
  risk_category : String
  risk_factors : List String
  protective_factors : List String
  growth_analysis : String
deriving Repr, DecidableEq

/-- Embeds lines 1700-1730 of `calculate_displacement_risk`: the base risk
bucket chosen from `percent_change`, starting from empty factor lists
(lines 1693-1694). -/
def baseAssessment (percent_change : ℚ) : BaseAssessment :=
  if percent_change ≤ -20 then
    { year_1_risk := 60, year_5_risk := 90, risk_category := "Very High",
      risk_factors := ["BLS projects significant employment decline for this occupation"],
      protective_factors := [],
      growth_analysis := "Significant decline projected" }
  else if percent_change ≤ -10 then
    { year_1_risk := 40, year_5_risk := 75, risk_category := "High",
      risk_factors := ["BLS projects moderate employment decline for this occupation"],
      protective_factors := [],
      growth_analysis := "Moderate decline projected" }
  else if percent_change ≤ 0 then
    { year_1_risk := 25, year_5_risk := 50, risk_category := "Moderate",
      risk_factors := ["BLS projects slight employment decline for this occupation"],
      protective_factors := [],
      growth_analysis := "Slight decline projected" }
  else if percent_change ≤ 10 then
    { year_1_risk := 15, year_5_risk := 35, risk_category := "Moderate",
      risk_factors := [],
      protective_factors := ["BLS projects slight employment growth for this occupation"],
      growth_analysis := "Slight growth projected" }
  else
    { year_1_risk := 10, year_5_risk := 25, risk_category := "Low",
      risk_factors := [],
      protective_factors := ["BLS projects significant employment growth for this occupation"],
      growth_analysis := "Strong growth projected" }

/-- The mutable local state over lines 1732-1869: risk values, factor
lists, and the three metrics initialized at lines 1736-1738. -/
structure GroupState where
  year_1_risk : ℚ
  year_5_risk : ℚ
  risk_factors : List String
  protective_factors : List String
  automation_probability : ℚ
  wage_trend : String
  evolving_skills : List String
deriving Repr, DecidableEq

/-- Embeds the SOC-group adjustment `if`/`elif` chain of
`calculate_displacement_risk` (lines 1740-1869), acting on the state after
the base assessment. The management group (`"11"`) overwrites the two risk
values instead of adding a delta (lines 1797-1798). -/
def groupAdjust (soc_major_group : String) (st : GroupState) : GroupState :=
  if soc_major_group = "43" then
    { st with
      risk_factors := st.risk_factors ++
        ["Administrative tasks are highly susceptible to automation",
         "Document processing can be handled by AI systems"],
      year_1_risk := st.year_1_risk + 10,
      year_5_risk := st.year_5_risk + 15,
      automation_probability := 3/4,
      wage_trend := "Declining",
      evolving_skills := ["Advanced data analysis", "Digital process management",
        "Client relationship management"] }
  else if soc_major_group = "15" then
    { st with
      risk_factors := st.risk_factors ++ ["Automated code generation is improving rapidly"],
      protective_factors := st.protective_factors ++
        ["Complex problem-solving still requires human insight"],
      automation_probability := 7/20,
      wage_trend := "Increasing",
      evolving_skills := ["AI/ML engineering", "Cloud architecture", "Cybersecurity expertise"] }
  else if soc_major_group = "29" then
    { st with
      protective_factors := st.protective_factors ++
        ["Direct patient care requires human empathy and dexterity"],
      year_1_risk := st.year_1_risk - 5,
      year_5_risk := st.year_5_risk - 10,
      automation_probability := 1/5,
      wage_trend := "Increasing",
      evolving_skills := ["Telemedicine competence", "Medical technology operation",
        "Patient data interpretation"] }
  else if soc_major_group = "53" then
    { st with
      risk_factors := st.risk_factors ++
        ["Autonomous vehicle technology is developing rapidly"],
      year_1_risk := st.year_1_risk + 5,
      year_5_risk := st.year_5_risk + 10,
      automation_probability := 13/20,
      wage_trend := "Stable to declining",
      evolving_skills := ["Advanced vehicle systems", "Logistics optimization",
        "Remote monitoring"] }
  else if soc_major_group = "11" then
    { st with
      protective_factors := st.protective_factors ++
        ["Strategic decision-making requires human judgment",
         "Complex stakeholder management requires human relationships"],
      risk_factors := st.risk_factors ++
        ["Project management software becoming increasingly automated"],
      year_1_risk := 35,
      year_5_risk := 60,
      automation_probability := 9/20,
      wage_trend := "Stable to increasing, depending on specialization",
      evolving_skills := ["AI tools implementation and oversight",
        "Data-driven decision making", "Agile management practices",
        "Cross-functional leadership", "Change management expertise"] }
  else if soc_major_group = "25" then
    { st with
      protective_factors := st.protective_factors ++
        ["Teaching requires adaptability and emotional intelligence"],
      year_1_risk := st.year_1_risk - 3,
      year_5_risk := st.year_5_risk - 7,
      automation_probability := 3/10,
      wage_trend := "Stable",
      evolving_skills := ["Educational technology proficiency",
        "Personalized learning approaches", "Digital content creation"] }
  else if soc_major_group = "41" then
    { st with
      risk_factors := st.risk_factors ++
        ["Online shopping and self-service technologies reduce demand"],
      year_1_risk := st.year_1_risk + 8,
      year_5_risk := st.year_5_risk + 12,
      automation_probability := 11/20,
      wage_trend := "Declining for basic roles, increasing for consultative sales",
      evolving_skills := ["Consultative selling", "Customer experience design",
        "Digital marketing"] }
  else if soc_major_group = "35" then
    { st with
      risk_factors := st.risk_factors ++
        ["Food preparation and service seeing increased automation"],
      year_1_risk := st.year_1_risk + 7,
      year_5_risk := st.year_5_risk + 14,
      automation_probability := 3/5,
      wage_trend := "Stable to declining",
      evolving_skills := ["Culinary specialization", "Customer experience",
        "Food safety and quality management"] }
  else if soc_major_group = "51" then
    { st with
      risk_factors := st.risk_factors ++
        ["Manufacturing processes increasingly automated"],
      year_1_risk := st.year_1_risk + 12,
      year_5_risk := st.year_5_risk + 18,
      automation_probability := 4/5,
      wage_trend := "Declining",
      evolving_skills := ["Advanced manufacturing tech", "Quality control systems",
        "Process optimization"] }
  else
    { st with
      automation_probability := 2/5,
      wage_trend := "Varies by specialization",
      evolving_skills := ["Digital literacy", "Data analysis",
        "Adaptability and continuous learning"] }

/-- The dictionary returned by `calculate_displacement_risk`
(lines 1881-1896), as a structure with one field per dict entry;
`projected_growth` is flattened into its `percent_change` and `analysis`
("growth_analysis") components. -/
structure RiskResult where
  year_1_risk : ℚ
  year_5_risk : ℚ
  risk_category : String
  risk_factors : List String
  protective_factors : List String
  analysis : String
  percent_change : ℚ
  growth_analysis : String
  automation_probability : ℚ
  wage_trend : String
  evolving_skills : List String
deriving Repr, DecidableEq

/-- Embeds the body of `calculate_displacement_risk` (lines 1693-1896)
once `percent_change` has been read off as a number: base bucket
(lines 1700-1730), SOC-group adjustment (lines 1732-1869), clamping and
ordering normalization (lines 1871-1876), and the analysis text
(line 1879). -/
def calculate_displacement_risk_core (job_title : String) (occ_code : String)
    (percent_change : ℚ) : RiskResult :=
  let base := baseAssessment percent_change
  let soc_major_group := socMajorGroup occ_code
  let st := groupAdjust soc_major_group
    { year_1_risk := base.year_1_risk, year_5_risk := base.year_5_risk,
      risk_factors := base.risk_factors,
      protective_factors := base.protective_factors,
      automation_probability := 0, wage_trend := "Stable",
      evolving_skills := [] }
  let year_1_risk := max 5 (min 95 st.year_1_risk)
  let year_5_risk := max 10 (min 95 st.year_5_risk)
  let year_5_risk := max year_5_risk (year_1_risk + 5)
  { year_1_risk := year_1_risk,
    year_5_risk := year_5_risk,
    risk_category := base.risk_category,
    risk_factors := st.risk_factors,
    protective_factors := st.protective_factors,
    analysis := generate_analysis_text job_title base.risk_category
      st.risk_factors st.protective_factors,
    percent_change := percent_change,
    growth_analysis := base.growth_analysis,
    automation_probability := st.automation_probability,
    wage_trend := st.wage_trend,
    evolving_skills := st.evolving_skills }

/-- Embeds `calculate_displacement_risk` (lines 1675-1896).
`projection_data.get("projections", {})` must be a dict (else Python's
`.get` on it raises `AttributeError`), and its `"percent_change"` entry,
defaulting to `0` when absent (line 1698), must be numeric (else the
comparison at line 1701 raises `TypeError`); a raised exception is
modelled as `Except.error`. `occupation_data` is accepted and unused,
exactly as in the source. -/
def calculate_displacement_risk (job_title : String) (occ_code : String)
    (occupation_data : PyDict) (projection_data : PyDict) :
    Except String RiskResult :=
  match dictGet projection_data "projections" (JVal.obj []) with
  | JVal.obj projections =>
    match jnum (dictGet projections "percent_change" (JVal.i 0)) with
    | Option.some percent_change =>
      Except.ok (calculate_displacement_risk_core job_title occ_code percent_change)
    | Option.none =>
      Except.error "TypeError: comparison of non-numeric percent_change with int"
  | _ => Except.error "AttributeError: projections value has no method get"
/-- Embeds the literal record returned by `get_court_reporter_data` (src/job_api_integration.py, lines 78-97). -/
def get_court_reporter_data : JVal :=
  JVal.obj [
    ("job_title", JVal.s "Court Reporter"),
    ("occupation_code", JVal.s "23-2011"),
    ("job_category", JVal.s "Legal"),
    ("automation_probability", JVal.q 45),
    ("risk_scores", JVal.obj [
      ("year_1", JVal.q 25),
      ("year_5", JVal.q 45)]),
    ("risk_category", JVal.s "Moderate"),
    ("risk_factors", JVal.arr [
      JVal.s "AI transcription services are becoming more accurate",
      JVal.s "Digital recording technology can capture proceedings automatically",
      JVal.s "Voice recognition software reduces need for manual stenography"]),
    ("protective_factors", JVal.arr [
      JVal.s "Legal expertise and terminology knowledge required",
      JVal.s "Real-time clarification and correction during proceedings",
      JVal.s "Certification and legal accuracy requirements"])]

/-- Embeds the literal record returned by `get_project_manager_data` (src/job_api_integration.py, lines 854-990). -/
def get_project_manager_data : JVal :=
  JVal.obj [
    ("job_title", JVal.s "Project Manager"),
    ("occupation_code", JVal.s "11-3021"),
    ("source", JVal.s "enhanced_data"),
    ("employment_data", JVal.arr []),
    ("latest_employment", JVal.s "571300"),
    ("projections", JVal.obj [
      ("current_employment", JVal.i 571300),
      ("projected_employment", JVal.i 627430),
      ("percent_change", JVal.q (49/5)),
      ("annual_job_openings", JVal.i 47500)]),
    ("risk_analysis", JVal.obj [
      ("year_1_risk", JVal.q 35),
      ("year_5_risk", JVal.q 60),
      ("risk_category", JVal.s "Moderate to High"),
      ("risk_factors", JVal.arr [
        JVal.s "Project management software increasingly automates routine tasks",
        JVal.s "AI tools can handle resource allocation and scheduling",
        JVal.s "Reporting and documentation can be automated",
        JVal.s "Basic project tracking requires less human oversight"]),
      ("protective_factors", JVal.arr [
        JVal.s "Complex stakeholder management requires human relationships",
        JVal.s "Strategic decision-making needs human judgment",
        JVal.s "Team leadership and motivation remain human-centered",
        JVal.s "Crisis management and problem-solving benefit from human experience"]),
      ("analysis", JVal.s "Project Managers face moderate to high displacement risk as AI tools advance. While routine project tracking and documentation are increasingly automated, roles requiring complex stakeholder management, strategic thinking, and leadership will remain valuable. Project managers who develop skills in AI oversight, strategic leadership, and change management will be more resilient to automation."),
      ("projected_growth", JVal.obj [
        ("percent_change", JVal.q (49/5)),
        ("analysis", JVal.s "Moderate growth projected")]),
      ("automation_probability", JVal.q (9/20)),
      ("wage_trend", JVal.s "Stable to increasing for specialized roles"),
      ("evolving_skills", JVal.arr [
        JVal.s "AI tools implementation and oversight",
        JVal.s "Data-driven decision making",
        JVal.s "Agile and adaptive methodologies",
        JVal.s "Cross-functional leadership",
        JVal.s "Change management expertise",
        JVal.s "Strategic resource optimization"]),
      ("skill_areas", JVal.obj [
        ("technical_skills", JVal.arr [
          JVal.s "AI/ML oversight and integration",
          JVal.s "Data analytics and interpretation",
          JVal.s "Advanced project management platforms",
          JVal.s "Business intelligence tools",
          JVal.s "Automation workflow design"]),
        ("soft_skills", JVal.arr [
          JVal.s "Strategic leadership",
          JVal.s "Cross-functional team management",
          JVal.s "Complex negotiation",
          JVal.s "Emotional intelligence",
          JVal.s "Crisis management",
          JVal.s "Stakeholder communication"]),
        ("transferable_skills", JVal.arr [
          JVal.s "Systems thinking",
          JVal.s "Process optimization",
          JVal.s "Resource allocation",
          JVal.s "Change management",
          JVal.s "Decision-making under uncertainty",
          JVal.s "Risk assessment"])])]),
    ("trend_data", JVal.obj [
      ("years", JVal.arr [
        JVal.i 2020,
        JVal.i 2021,
        JVal.i 2022,
        JVal.i 2023,
        JVal.i 2024,
        JVal.i 2025]),
      ("employment", JVal.arr [
        JVal.i 525000,
        JVal.i 538000,
        JVal.i 550000,
        JVal.i 571300,
        JVal.i 585000,
        JVal.i 599000])]),
    ("similar_jobs", JVal.arr [
      JVal.obj [
        ("job_title", JVal.s "Program Manager"),
        ("occupation_code", JVal.s "11-3021"),
        ("year_1_risk", JVal.q 30),
        ("year_5_risk", JVal.q 55),
        ("risk_category", JVal.s "Moderate")],
      JVal.obj [
        ("job_title", JVal.s "Product Manager"),
        ("occupation_code", JVal.s "11-2021"),
        ("year_1_risk", JVal.q 25),
        ("year_5_risk", JVal.q 45),
        ("risk_category", JVal.s "Moderate")],
      JVal.obj [
        ("job_title", JVal.s "Construction Manager"),
        ("occupation_code", JVal.s "11-9021"),
        ("year_1_risk", JVal.q 20),
        ("year_5_risk", JVal.q 40),
        ("risk_category", JVal.s "Moderate")],
      JVal.obj [
        ("job_title", JVal.s "Operations Manager"),
        ("occupation_code", JVal.s "11-1021"),
        ("year_1_risk", JVal.q 40),
        ("year_5_risk", JVal.q 65),
        ("risk_category", JVal.s "High")]])]

/-- Embeds the literal record returned by `get_retail_sales_data` (src/job_api_integration.py, lines 1128-1263). -/
def get_retail_sales_data : JVal :=
  JVal.obj [
    ("job_title", JVal.s "Retail Salesperson"),
    ("occupation_code", JVal.s "41-2031"),
    ("source", JVal.s "enhanced_data"),
    ("employment_data", JVal.arr []),
    ("latest_employment", JVal.s "3625500"),
    ("projections", JVal.obj [
      ("current_employment", JVal.i 3625500),
      ("projected_employment", JVal.i 3464000),
      ("percent_change", JVal.q (-9/2)),
      ("annual_job_openings", JVal.i 606000)]),
    ("risk_analysis", JVal.obj [
      ("year_1_risk", JVal.q 55),
      ("year_5_risk", JVal.q 75),
      ("risk_category", JVal.s "High"),
      ("risk_factors", JVal.arr [
        JVal.s "Self-checkout and automated payment systems replace cashiers",
        JVal.s "E-commerce continues to grow at expense of physical retail",
        JVal.s "Inventory management increasingly automated",
        JVal.s "AI-powered recommendation systems replace product knowledge",
        JVal.s "Automated customer service chatbots handle basic inquiries"]),
      ("protective_factors", JVal.arr [
        JVal.s "Complex customer service scenarios require human judgment",
        JVal.s "High-end or specialized product sales need human expertise",
        JVal.s "In-person sales psychology and relationship building",
        JVal.s "Visual merchandising and store experience design"]),
      ("analysis", JVal.s "Retail sales positions face high displacement risk from automation and AI. The combination of e-commerce growth, self-checkout technology, and automated inventory systems threatens many traditional retail jobs. The most resilient roles will be in high-end or specialized retail where product expertise, personalized service, and relationship building remain valuable human skills."),
      ("projected_growth", JVal.obj [
        ("percent_change", JVal.q (-9/2)),
        ("analysis", JVal.s "Moderate decline projected")]),
      ("automation_probability", JVal.q (7/10)),
      ("wage_trend", JVal.s "Declining for general positions, stable for specialized sales"),
      ("evolving_skills", JVal.arr [
        JVal.s "Omnichannel customer service",
        JVal.s "Digital sales platforms",
        JVal.s "Personalized shopping experience design",
        JVal.s "Product expertise beyond online information",
        JVal.s "Complex problem-solving for customers",
        JVal.s "Experience-based selling"]),
      ("skill_areas", JVal.obj [
        ("technical_skills", JVal.arr [
          JVal.s "E-commerce platform knowledge",
          JVal.s "Digital payment systems",
          JVal.s "CRM software proficiency",
          JVal.s "Inventory management systems",
          JVal.s "Social media selling"]),
        ("soft_skills", JVal.arr [
          JVal.s "Consultative selling",
          JVal.s "Relationship building",
          JVal.s "Conflict resolution",
          JVal.s "Product storytelling",
          JVal.s "Emotional intelligence",
          JVal.s "Active listening"]),
        ("transferable_skills", JVal.arr [
          JVal.s "Customer needs assessment",
          JVal.s "Solution development",
          JVal.s "Negotiation",
          JVal.s "Visual presentation",
          JVal.s "Persuasive communication",
          JVal.s "Performance under pressure"])])]),
    ("trend_data", JVal.obj [
      ("years", JVal.arr [
        JVal.i 2020,
        JVal.i 2021,
        JVal.i 2022,
        JVal.i 2023,
        JVal.i 2024,
        JVal.i 2025]),
      ("employment", JVal.arr [
        JVal.i 3835000,
        JVal.i 3710000,
        JVal.i 3625500,
        JVal.i 3580000,
        JVal.i 3520000,
        JVal.i 3464000])]),
    ("similar_jobs", JVal.arr [
      JVal.obj [
        ("job_title", JVal.s "Customer Service Representative"),
        ("occupation_code", JVal.s "43-4051"),
        ("year_1_risk", JVal.q 60),
        ("year_5_risk", JVal.q 80),
        ("risk_category", JVal.s "High")],
      JVal.obj [
        ("job_title", JVal.s "Sales Manager"),
        ("occupation_code", JVal.s "11-2022"),
        ("year_1_risk", JVal.q 25),
        ("year_5_risk", JVal.q 45),
        ("risk_category", JVal.s "Moderate")],
      JVal.obj [
        ("job_title", JVal.s "Cashier"),
        ("occupation_code", JVal.s "41-2011"),
        ("year_1_risk", JVal.q 70),
        ("year_5_risk", JVal.q 90),
        ("risk_category", JVal.s "Very High")],
      JVal.obj [
        ("job_title", JVal.s "Sales Representative"),
        ("occupation_code", JVal.s "41-4012"),
        ("year_1_risk", JVal.q 40),
        ("year_5_risk", JVal.q 60),
        ("risk_category", JVal.s "High")]])]

/-- Embeds the literal record returned by `get_cook_data` (src/job_api_integration.py, lines 1265-1401). -/
def get_cook_data : JVal :=
  JVal.obj [
    ("job_title", JVal.s "Restaurant Cook"),
    ("occupation_code", JVal.s "35-2014"),
    ("source", JVal.s "enhanced_data"),
    ("employment_data", JVal.arr []),
    ("latest_employment", JVal.s "1235800"),
    ("projections", JVal.obj [
      ("current_employment", JVal.i 1235800),
      ("projected_employment", JVal.i 1334600),
      ("percent_change", JVal.q 8),
      ("annual_job_openings", JVal.i 178800)]),
    ("risk_analysis", JVal.obj [
      ("year_1_risk", JVal.q 40),
      ("year_5_risk", JVal.q 65),
      ("risk_category", JVal.s "Moderate to High"),
      ("risk_factors", JVal.arr [
        JVal.s "Food preparation robots are being deployed in fast food",
        JVal.s "Automated cooking systems can handle basic dishes",
        JVal.s "Recipe standardization reduces need for culinary judgment",
        JVal.s "Kitchen management software optimizes staffing and inventory",
        JVal.s "Delivery and takeout growth reduces in-restaurant dining"]),
      ("protective_factors", JVal.arr [
        JVal.s "Creative culinary development requires human taste and judgment",
        JVal.s "Complex dishes need advanced cooking techniques",
        JVal.s "Fine dining experience depends on human execution",
        JVal.s "Menu development and food innovation remain human-centered",
        JVal.s "Food quality control requires human senses"]),
      ("analysis", JVal.s "Cooks face moderate to high displacement risk, with significant differences based on restaurant type. Fast food and chain restaurants are implementing automation for basic food preparation, while creative roles in upscale restaurants remain more protected. Cooks who develop specialized skills, culinary creativity, and management abilities will be more resilient to automation."),
      ("projected_growth", JVal.obj [
        ("percent_change", JVal.q 8),
        ("analysis", JVal.s "Moderate growth projected")]),
      ("automation_probability", JVal.q (3/5)),
      ("wage_trend", JVal.s "Stable to increasing for specialized culinary skills"),
      ("evolving_skills", JVal.arr [
        JVal.s "Culinary innovation and creativity",
        JVal.s "Advanced cooking techniques",
        JVal.s "Menu development",
        JVal.s "Food science knowledge",
        JVal.s "Specialized cuisine expertise",
        JVal.s "Technology integration in kitchen operations"]),
      ("skill_areas", JVal.obj [
        ("technical_skills", JVal.arr [
          JVal.s "Advanced cooking methods",
          JVal.s "Menu engineering",
          JVal.s "Food safety systems",
          JVal.s "Kitchen technology operations",
          JVal.s "Inventory management platforms"]),
        ("soft_skills", JVal.arr [
          JVal.s "Team leadership",
          JVal.s "Time management under pressure",
          JVal.s "Creative problem-solving",
          JVal.s "Quality control",
          JVal.s "Sensory evaluation",
          JVal.s "Communication in dynamic environments"]),
        ("transferable_skills", JVal.arr [
          JVal.s "Process optimization",
          JVal.s "Resource management",
          JVal.s "Team coordination",
          JVal.s "Multitasking",
          JVal.s "Quality assessment",
          JVal.s "Critical decision-making"])])]),
    ("trend_data", JVal.obj [
      ("years", JVal.arr [
        JVal.i 2020,
        JVal.i 2021,
        JVal.i 2022,
        JVal.i 2023,
        JVal.i 2024,
        JVal.i 2025]),
      ("employment", JVal.arr [
        JVal.i 1100000,
        JVal.i 1152000,
        JVal.i 1235800,
        JVal.i 1270000,
        JVal.i 1305000,
        JVal.i 1334600])]),
    ("similar_jobs", JVal.arr [
      JVal.obj [
        ("job_title", JVal.s "Chef"),
        ("occupation_code", JVal.s "35-1011"),
        ("year_1_risk", JVal.q 30),
        ("year_5_risk", JVal.q 50),
        ("risk_category", JVal.s "Moderate")],
      JVal.obj [
        ("job_title", JVal.s "Food Preparation Worker"),
        ("occupation_code", JVal.s "35-2021"),
        ("year_1_risk", JVal.q 65),
        ("year_5_risk", JVal.q 85),
        ("risk_category", JVal.s "Very High")],
      JVal.obj [
        ("job_title", JVal.s "Baker"),
        ("occupation_code", JVal.s "51-3011"),
        ("year_1_risk", JVal.q 45),
        ("year_5_risk", JVal.q 70),
        ("risk_category", JVal.s "High")],
      JVal.obj [
        ("job_title", JVal.s "Restaurant Manager"),
        ("occupation_code", JVal.s "11-9051"),
        ("year_1_risk", JVal.q 25),
        ("year_5_risk", JVal.q 45),
        ("risk_category", JVal.s "Moderate")]])]

/-- Embeds the literal record returned by `get_web_developer_data` (src/job_api_integration.py, lines 2019-2152). -/
def get_web_developer_data : JVal :=
  JVal.obj [
    ("job_title", JVal.s "Web Developer"),
    ("occupation_code", JVal.s "15-1254"),
    ("source", JVal.s "enhanced_data"),
    ("employment_data", JVal.arr []),
    ("latest_employment", JVal.s "199400"),
    ("projections", JVal.obj [
      ("current_employment", JVal.i 199400),
      ("projected_employment", JVal.i 224800),
      ("percent_change", JVal.q (127/10)),
      ("annual_job_openings", JVal.i 21800)]),
    ("risk_analysis", JVal.obj [
      ("year_1_risk", JVal.q 18),
      ("year_5_risk", JVal.q 38),
      ("risk_category", JVal.s "Moderate"),
      ("risk_factors", JVal.arr [
        JVal.s "AI-powered code generation tools automate boilerplate code",
        JVal.s "Low-code platforms reduce need for custom coding",
        JVal.s "Template-based solutions for common websites",
        JVal.s "Automated testing and deployment systems",
        JVal.s "Outsourcing of basic web development work"]),
      ("protective_factors", JVal.arr [
        JVal.s "Complex backend system integration knowledge",
        JVal.s "Performance optimization expertise",
        JVal.s "Security implementation skills",
        JVal.s "Advanced interaction programming",
        JVal.s "Custom solution architecture"]),
      ("analysis", JVal.s "Web Developers face moderate risk from AI and automation tools. While basic website creation is increasingly automated through templates and AI-powered solutions, complex web applications still require skilled developers. The most resilient Web Developers will be those who specialize in areas requiring deep technical knowledge such as security, performance optimization, or complex system integrations. Those focused on basic website creation face higher displacement risk as AI code generation tools become more capable."),
      ("projected_growth", JVal.obj [
        ("percent_change", JVal.q (127/10)),
        ("analysis", JVal.s "Strong growth projected")]),
      ("automation_probability", JVal.q (19/50)),
      ("wage_trend", JVal.s "Increasing, especially for those with specialized skills"),
      ("skill_areas", JVal.obj [
        ("technical_skills", JVal.arr [
          JVal.s "JavaScript frameworks (React, Vue, Angular)",
          JVal.s "Backend technologies (Node.js, Python, PHP)",
          JVal.s "Database design and management",
          JVal.s "API development and integration",
          JVal.s "DevOps and deployment automation"]),
        ("soft_skills", JVal.arr [
          JVal.s "Client communication",
          JVal.s "Problem-solving",
          JVal.s "Technical documentation",
          JVal.s "Time management",
          JVal.s "Adaptability to new technologies"]),
        ("transferable_skills", JVal.arr [
          JVal.s "UX/UI understanding",
          JVal.s "Project management",
          JVal.s "Digital security awareness",
          JVal.s "Data analysis",
          JVal.s "Performance optimization"])]),
      ("evolving_skills", JVal.arr [
        JVal.s "Cloud architecture",
        JVal.s "API design and implementation",
        JVal.s "Progressive Web App development",
        JVal.s "Cybersecurity",
        JVal.s "Web3 and blockchain implementation"])]),
    ("trend_data", JVal.obj [
      ("years", JVal.arr [
        JVal.i 2020,
        JVal.i 2021,
        JVal.i 2022,
        JVal.i 2023,
        JVal.i 2024,
        JVal.i 2025]),
      ("employment", JVal.arr [
        JVal.i 174300,
        JVal.i 182100,
        JVal.i 192500,
        JVal.i 199400,
        JVal.i 212600,
        JVal.i 224800])]),
    ("similar_jobs", JVal.arr [
      JVal.obj [
        ("job_title", JVal.s "Frontend Developer"),
        ("occupation_code", JVal.s "15-1254"),
        ("year_1_risk", JVal.q 20),
        ("year_5_risk", JVal.q 40),
        ("risk_category", JVal.s "Moderate")],
      JVal.obj [
        ("job_title", JVal.s "UI Developer"),
        ("occupation_code", JVal.s "15-1254"),
        ("year_1_risk", JVal.q 20),
        ("year_5_risk", JVal.q 40),
        ("risk_category", JVal.s "Moderate")],
      JVal.obj [
        ("job_title", JVal.s "Software Developer"),
        ("occupation_code", JVal.s "15-1252"),
        ("year_1_risk", JVal.q 15),
        ("year_5_risk", JVal.q 30),
        ("risk_category", JVal.s "Moderate")],
      JVal.obj [
        ("job_title", JVal.s "Full Stack Developer"),
        ("occupation_code", JVal.s "15-1254"),
        ("year_1_risk", JVal.q 14),
        ("year_5_risk", JVal.q 32),
        ("risk_category", JVal.s "Moderate")]])]

/-- Embeds the literal record returned by `get_business_analyst_data` (src/job_api_integration.py, lines 2155-2288). -/
def get_business_analyst_data : JVal :=
  JVal.obj [
    ("job_title", JVal.s "Business Analyst"),
    ("occupation_code", JVal.s "13-1111"),
    ("source", JVal.s "enhanced_data"),
    ("employment_data", JVal.arr []),
    ("latest_employment", JVal.s "950600"),
    ("projections", JVal.obj [
      ("current_employment", JVal.i 950600),
      ("projected_employment", JVal.i 1032200),
      ("percent_change", JVal.q (43/5)),
      ("annual_job_openings", JVal.i 95800)]),
    ("risk_analysis", JVal.obj [
      ("year_1_risk", JVal.q 25),
      ("year_5_risk", JVal.q 45),
      ("risk_category", JVal.s "Moderate"),
      ("risk_factors", JVal.arr [
        JVal.s "Process automation eliminates routine data analysis",
        JVal.s "AI tools streamline requirements gathering",
        JVal.s "Business intelligence tools become more autonomous",
        JVal.s "Automated reporting reduces analysis needs",
        JVal.s "Low-code platforms reduce technical intermediary roles"]),
      ("protective_factors", JVal.arr [
        JVal.s "Complex stakeholder relationship management",
        JVal.s "Strategic business understanding and domain expertise",
        JVal.s "Process improvement and change management skills",
        JVal.s "Critical thinking and problem-solving in ambiguous situations",
        JVal.s "Systems thinking across organizational boundaries"]),
      ("analysis", JVal.s "Business Analysts face moderate risk from AI and automation technologies. While tools are automating routine analysis and reporting tasks, the role\x27s value in bridging business needs with technical solutions remains important. BAs with strong business domain knowledge, strategic thinking, and stakeholder management skills will remain valuable, while those focused primarily on reporting and basic analysis face higher displacement risk."),
      ("projected_growth", JVal.obj [
        ("percent_change", JVal.q (43/5)),
        ("analysis", JVal.s "Moderate growth projected")]),
      ("automation_probability", JVal.q (9/20)),
      ("wage_trend", JVal.s "Stable, with growth for specialized analysts"),
      ("skill_areas", JVal.obj [
        ("technical_skills", JVal.arr [
          JVal.s "Data analysis and statistics",
          JVal.s "SQL and database query skills",
          JVal.s "Process modeling",
          JVal.s "Requirements engineering",
          JVal.s "Business intelligence tools"]),
        ("soft_skills", JVal.arr [
          JVal.s "Stakeholder management",
          JVal.s "Facilitation and interviewing",
          JVal.s "Problem-solving",
          JVal.s "Communication and presentation",
          JVal.s "Critical thinking"]),
        ("transferable_skills", JVal.arr [
          JVal.s "Project management",
          JVal.s "Strategic planning",
          JVal.s "Change management",
          JVal.s "Training and education",
          JVal.s "Documentation and technical writing"])]),
      ("evolving_skills", JVal.arr [
        JVal.s "AI/ML understanding",
        JVal.s "Process automation",
        JVal.s "Advanced data visualization",
        JVal.s "Agile methodologies",
        JVal.s "Strategic business understanding"])]),
    ("trend_data", JVal.obj [
      ("years", JVal.arr [
        JVal.i 2020,
        JVal.i 2021,
        JVal.i 2022,
        JVal.i 2023,
        JVal.i 2024,
        JVal.i 2025]),
      ("employment", JVal.arr [
        JVal.i 876200,
        JVal.i 899400,
        JVal.i 926700,
        JVal.i 950600,
        JVal.i 986800,
        JVal.i 1032200])]),
    ("similar_jobs", JVal.arr [
      JVal.obj [
        ("job_title", JVal.s "Management Analyst"),
        ("occupation_code", JVal.s "13-1111"),
        ("year_1_risk", JVal.q 22),
        ("year_5_risk", JVal.q 40),
        ("risk_category", JVal.s "Moderate")],
      JVal.obj [
        ("job_title", JVal.s "Project Manager"),
        ("occupation_code", JVal.s "11-3021"),
        ("year_1_risk", JVal.q 20),
        ("year_5_risk", JVal.q 35),
        ("risk_category", JVal.s "Moderate")],
      JVal.obj [
        ("job_title", JVal.s "Systems Analyst"),
        ("occupation_code", JVal.s "15-1211"),
        ("year_1_risk", JVal.q 18),
        ("year_5_risk", JVal.q 38),
        ("risk_category", JVal.s "Moderate")],
      JVal.obj [
        ("job_title", JVal.s "Data Analyst"),
        ("occupation_code", JVal.s "15-2051"),
        ("year_1_risk", JVal.q 30),
        ("year_5_risk", JVal.q 50),
        ("risk_category", JVal.s "Moderate")]])]

/-- Embeds the hand-authored literal record built by `get_diagnosician_data` (src/job_api_integration.py, lines 2290-2357). -/
def diagnosician_record : JVal :=
  JVal.obj [
    ("job_title", JVal.s "Diagnosician"),
    ("occupation_code", JVal.s "29-1213"),
    ("latest_employment", JVal.s "78,300"),
    ("projections", JVal.obj [
      ("percent_change", JVal.q (76/5)),
      ("annual_job_openings", JVal.i 8950)]),
    ("risk_analysis", JVal.obj [
      ("year_1_risk", JVal.q (43/2)),
      ("year_5_risk", JVal.q (184/5)),
      ("automation_probability", JVal.q (29/100)),
      ("wage_trend", JVal.s "Increasing"),
      ("risk_factors", JVal.arr [
        JVal.s "AI diagnostic tools can analyze medical images with high accuracy",
        JVal.s "Machine learning models becoming better at pattern recognition",
        JVal.s "Telemedicine and remote diagnostics reducing need for in-person specialists"]),
      ("protective_factors", JVal.arr [
        JVal.s "Complex cases require human judgment and medical expertise",
        JVal.s "Patient interaction and communication skills remain essential",
        JVal.s "Specialized knowledge of rare conditions not well represented in AI training data",
        JVal.s "Ability to integrate patient history with diagnostic findings"]),
      ("analysis", JVal.s "Diagnosicians face low to moderate AI displacement risk that increases gradually. While AI tools are becoming more capable at analyzing diagnostic images and data, the role requires complex medical knowledge, critical thinking, and patient interaction that AI cannot fully replace. The most valuable skills will be in difficult case analysis, integrating multiple data sources, and applying diagnostic insights to treatment planning."),
      ("projected_growth", JVal.obj [
        ("analysis", JVal.s "Steady growth with evolving responsibilities"),
        ("next_steps", JVal.arr [
          JVal.s "Develop expertise in AI-assisted diagnostic technologies",
          JVal.s "Focus on complex case analysis and rare conditions",
          JVal.s "Build skills in patient communication and integrated care"])])]),
    ("trend_data", JVal.obj [
      ("years", JVal.arr [
        JVal.i 2018,
        JVal.i 2019,
        JVal.i 2020,
        JVal.i 2021,
        JVal.i 2022,
        JVal.i 2023]),
      ("employment", JVal.arr [
        JVal.i 65200,
        JVal.i 68400,
        JVal.i 70800,
        JVal.i 73600,
        JVal.i 76100,
        JVal.i 78300])]),
    ("similar_jobs", JVal.arr [
      JVal.obj [
        ("title", JVal.s "Radiologist"),
        ("risk_level", JVal.s "Moderate")],
      JVal.obj [
        ("title", JVal.s "Pathologist"),
        ("risk_level", JVal.s "Low-Moderate")],
      JVal.obj [
        ("title", JVal.s "Medical Technologist"),
        ("risk_level", JVal.s "Moderate")],
      JVal.obj [
        ("title", JVal.s "Diagnostic Medical Sonographer"),
        ("risk_level", JVal.s "Moderate")]])]

/-- Embeds the literal record returned by `get_ui_developer_data` (src/job_api_integration.py, lines 2359-2492). -/
def get_ui_developer_data : JVal :=
  JVal.obj [
    ("job_title", JVal.s "UI Developer"),
    ("occupation_code", JVal.s "15-1254"),
    ("source", JVal.s "enhanced_data"),
    ("employment_data", JVal.arr []),
    ("latest_employment", JVal.s "192800"),
    ("projections", JVal.obj [
      ("current_employment", JVal.i 192800),
      ("projected_employment", JVal.i 222900),
      ("percent_change", JVal.q (78/5)),
      ("annual_job_openings", JVal.i 19200)]),
    ("risk_analysis", JVal.obj [
      ("year_1_risk", JVal.q 20),
      ("year_5_risk", JVal.q 40),
      ("risk_category", JVal.s "Moderate"),
      ("risk_factors", JVal.arr [
        JVal.s "AI-powered design and code generation tools",
        JVal.s "No-code and low-code platforms reducing coding needs",
        JVal.s "Automated responsive design systems",
        JVal.s "Standardization of UI components",
        JVal.s "Design systems reducing custom implementation needs"]),
      ("protective_factors", JVal.arr [
        JVal.s "Complex UI interactions requiring specialized expertise",
        JVal.s "User experience knowledge and design thinking",
        JVal.s "Accessibility expertise and implementation",
        JVal.s "Cross-browser and platform compatibility skills",
        JVal.s "Creative problem-solving for unique interfaces"]),
      ("analysis", JVal.s "UI Developers face moderate risk from AI and automation tools. While aspects of UI implementation are being automated through code generation tools and design systems, the expertise in creating optimal user experiences and solving complex interface challenges remains valuable. UI Developers who combine technical implementation skills with UX design knowledge and creative problem-solving abilities will be most resistant to displacement."),
      ("projected_growth", JVal.obj [
        ("percent_change", JVal.q (78/5)),
        ("analysis", JVal.s "Strong growth projected")]),
      ("automation_probability", JVal.q (2/5)),
      ("wage_trend", JVal.s "Growing, especially for those with UX skills"),
      ("skill_areas", JVal.obj [
        ("technical_skills", JVal.arr [
          JVal.s "JavaScript/TypeScript",
          JVal.s "React, Vue, Angular or other frameworks",
          JVal.s "CSS/SCSS",
          JVal.s "Responsive design",
          JVal.s "Frontend build tools"]),
        ("soft_skills", JVal.arr [
          JVal.s "Design thinking",
          JVal.s "Communication with designers and backend developers",
          JVal.s "Problem-solving",
          JVal.s "Adaptability to new frameworks",
          JVal.s "Attention to detail"]),
        ("transferable_skills", JVal.arr [
          JVal.s "Visual design principles",
          JVal.s "Accessibility knowledge",
          JVal.s "Performance optimization",
          JVal.s "User psychology understanding",
          JVal.s "Prototyping and wireframing"])]),
      ("evolving_skills", JVal.arr [
        JVal.s "UX/UI design principles",
        JVal.s "Animation and motion design",
        JVal.s "Design system implementation",
        JVal.s "Frontend testing automation",
        JVal.s "Mobile-first development"])]),
    ("trend_data", JVal.obj [
      ("years", JVal.arr [
        JVal.i 2020,
        JVal.i 2021,
        JVal.i 2022,
        JVal.i 2023,
        JVal.i 2024,
        JVal.i 2025]),
      ("employment", JVal.arr [
        JVal.i 166500,
        JVal.i 174200,
        JVal.i 182300,
        JVal.i 192800,
        JVal.i 208000,
        JVal.i 222900])]),
    ("similar_jobs", JVal.arr [
      JVal.obj [
        ("job_title", JVal.s "Web Developer"),
        ("occupation_code", JVal.s "15-1254"),
        ("year_1_risk", JVal.q 15),
        ("year_5_risk", JVal.q 35),
        ("risk_category", JVal.s "Moderate")],
      JVal.obj [
        ("job_title", JVal.s "UX Designer"),
        ("occupation_code", JVal.s "27-1024"),
        ("year_1_risk", JVal.q 12),
        ("year_5_risk", JVal.q 28),
        ("risk_category", JVal.s "Low")],
      JVal.obj [
        ("job_title", JVal.s "Frontend Developer"),
        ("occupation_code", JVal.s "15-1254"),
        ("year_1_risk", JVal.q 18),
        ("year_5_risk", JVal.q 38),
        ("risk_category", JVal.s "Moderate")],
      JVal.obj [
        ("job_title", JVal.s "Web Designer"),
        ("occupation_code", JVal.s "15-1255"),
        ("year_1_risk", JVal.q 25),
        ("year_5_risk", JVal.q 45),
        ("risk_category", JVal.s "Moderate")]])]

/-- Embeds `get_teacher_data` (src/job_api_integration.py, lines 1403-1543); the record depends only on whether the title contains "middle". -/
def get_teacher_data (job_title : String) : JVal :=
  if pyIn "middle" (pyLower job_title) then
    JVal.obj [
      ("job_title", JVal.s "Middle School Teachers"),
      ("occupation_code", JVal.s "25-2022"),
      ("source", JVal.s "enhanced_data"),
      ("employment_data", JVal.arr []),
      ("latest_employment", JVal.s "1430000"),
      ("projections", JVal.obj [
        ("current_employment", JVal.i 1430000),
        ("projected_employment", JVal.i 1515000),
        ("percent_change", JVal.q 6),
        ("annual_job_openings", JVal.i 124300)]),
      ("risk_analysis", JVal.obj [
        ("year_1_risk", JVal.q 15),
        ("year_5_risk", JVal.q 30),
        ("risk_category", JVal.s "Low"),
        ("risk_factors", JVal.arr [
          JVal.s "AI tools can generate lesson plans and educational materials",
          JVal.s "Automated grading systems reduce administrative workload",
          JVal.s "Educational software can deliver standardized content",
          JVal.s "Virtual teaching platforms may reduce demand for in-person instruction"]),
        ("protective_factors", JVal.arr [
          JVal.s "Building student relationships requires human empathy",
          JVal.s "Classroom management demands human judgment and adaptability",
          JVal.s "Personalized instruction requires understanding individual students",
          JVal.s "Mentoring and social-emotional support remain human-centered"])]),
      ("trend_data", JVal.obj [
        ("years", JVal.arr [
          JVal.i 2020,
          JVal.i 2021,
          JVal.i 2022,
          JVal.i 2023,
          JVal.i 2024,
          JVal.i 2025]),
        ("employment", JVal.arr [
          JVal.i 650000,
          JVal.i 662000,
          JVal.i 675000,
          JVal.i 680000,
          JVal.i 685000,
          JVal.i 690000])]),
      ("similar_jobs", JVal.arr [
        JVal.obj [
          ("job_title", JVal.s "School Counselor"),
          ("occupation_code", JVal.s "21-1012"),
          ("year_1_risk", JVal.q 12),
          ("year_5_risk", JVal.q 25),
          ("risk_category", JVal.s "Low")],
        JVal.obj [
          ("job_title", JVal.s "Special Education Teacher"),
          ("occupation_code", JVal.s "25-2050"),
          ("year_1_risk", JVal.q 10),
          ("year_5_risk", JVal.q 20),
          ("risk_category", JVal.s "Low")],
        JVal.obj [
          ("job_title", JVal.s "Educational Administrator"),
          ("occupation_code", JVal.s "11-9032"),
          ("year_1_risk", JVal.q 20),
          ("year_5_risk", JVal.q 35),
          ("risk_category", JVal.s "Moderate")],
        JVal.obj [
          ("job_title", JVal.s "Instructional Coordinator"),
          ("occupation_code", JVal.s "25-9031"),
          ("year_1_risk", JVal.q 18),
          ("year_5_risk", JVal.q 32),
          ("risk_category", JVal.s "Moderate")]]),
      ("skills", JVal.obj [
        ("future_proof_skills", JVal.arr [
          JVal.s "Personalized learning approaches",
          JVal.s "Technology integration in classroom",
          JVal.s "Social-emotional learning facilitation",
          JVal.s "Cross-disciplinary teaching methods",
          JVal.s "Adaptive learning techniques"]),
        ("skill_areas", JVal.obj [
          ("technical_skills", JVal.arr [
            JVal.s "Educational technology platforms",
            JVal.s "Data-informed instruction",
            JVal.s "Digital content creation",
            JVal.s "Learning management systems",
            JVal.s "Assistive technology implementation"]),
          ("soft_skills", JVal.arr [
            JVal.s "Empathetic communication",
            JVal.s "Crisis management",
            JVal.s "Cultural responsiveness",
            JVal.s "Collaborative leadership",
            JVal.s "Conflict resolution",
            JVal.s "Emotional intelligence"]),
          ("transferable_skills", JVal.arr [
            JVal.s "Curriculum development",
            JVal.s "Needs assessment",
            JVal.s "Performance evaluation",
            JVal.s "Group facilitation",
            JVal.s "Project-based learning design",
            JVal.s "Mentoring"])])])]
  else
    JVal.obj [
      ("job_title", JVal.s "Elementary School Teachers"),
      ("occupation_code", JVal.s "25-2021"),
      ("source", JVal.s "enhanced_data"),
      ("employment_data", JVal.arr []),
      ("latest_employment", JVal.s "1430000"),
      ("projections", JVal.obj [
        ("current_employment", JVal.i 1430000),
        ("projected_employment", JVal.i 1515000),
        ("percent_change", JVal.q 6),
        ("annual_job_openings", JVal.i 124300)]),
      ("risk_analysis", JVal.obj [
        ("year_1_risk", JVal.q 15),
        ("year_5_risk", JVal.q 30),
        ("risk_category", JVal.s "Low"),
        ("risk_factors", JVal.arr [
          JVal.s "AI tools can generate lesson plans and educational materials",
          JVal.s "Automated grading systems reduce administrative workload",
          JVal.s "Educational software can deliver standardized content",
          JVal.s "Virtual teaching platforms may reduce demand for in-person instruction"]),
        ("protective_factors", JVal.arr [
          JVal.s "Building student relationships requires human empathy",
          JVal.s "Classroom management demands human judgment and adaptability",
          JVal.s "Personalized instruction requires understanding individual students",
          JVal.s "Mentoring and social-emotional support remain human-centered"])]),
      ("trend_data", JVal.obj [
        ("years", JVal.arr [
          JVal.i 2020,
          JVal.i 2021,
          JVal.i 2022,
          JVal.i 2023,
          JVal.i 2024,
          JVal.i 2025]),
        ("employment", JVal.arr [
          JVal.i 1370000,
          JVal.i 1395000,
          JVal.i 1410000,
          JVal.i 1430000,
          JVal.i 1470000,
          JVal.i 1515000])]),
      ("similar_jobs", JVal.arr [
        JVal.obj [
          ("job_title", JVal.s "School Counselor"),
          ("occupation_code", JVal.s "21-1012"),
          ("year_1_risk", JVal.q 12),
          ("year_5_risk", JVal.q 25),
          ("risk_category", JVal.s "Low")],
        JVal.obj [
          ("job_title", JVal.s "Special Education Teacher"),
          ("occupation_code", JVal.s "25-2050"),
          ("year_1_risk", JVal.q 10),
          ("year_5_risk", JVal.q 20),
          ("risk_category", JVal.s "Low")],
        JVal.obj [
          ("job_title", JVal.s "Educational Administrator"),
          ("occupation_code", JVal.s "11-9032"),
          ("year_1_risk", JVal.q 20),
          ("year_5_risk", JVal.q 35),
          ("risk_category", JVal.s "Moderate")],
        JVal.obj [
          ("job_title", JVal.s "Instructional Coordinator"),
          ("occupation_code", JVal.s "25-9031"),
          ("year_1_risk", JVal.q 18),
          ("year_5_risk", JVal.q 32),
          ("risk_category", JVal.s "Moderate")]]),
      ("skills", JVal.obj [
        ("future_proof_skills", JVal.arr [
          JVal.s "Personalized learning approaches",
          JVal.s "Technology integration in classroom",
          JVal.s "Social-emotional learning facilitation",
          JVal.s "Cross-disciplinary teaching methods",
          JVal.s "Adaptive learning techniques"]),
        ("skill_areas", JVal.obj [
          ("technical_skills", JVal.arr [
            JVal.s "Educational technology platforms",
            JVal.s "Data-informed instruction",
            JVal.s "Digital content creation",
            JVal.s "Learning management systems",
            JVal.s "Assistive technology implementation"]),
          ("soft_skills", JVal.arr [
            JVal.s "Empathetic communication",
            JVal.s "Crisis management",
            JVal.s "Cultural responsiveness",
            JVal.s "Collaborative leadership",
            JVal.s "Conflict resolution",
            JVal.s "Emotional intelligence"]),
          ("transferable_skills", JVal.arr [
            JVal.s "Curriculum development",
            JVal.s "Needs assessment",
            JVal.s "Performance evaluation",
            JVal.s "Group facilitation",
            JVal.s "Project-based learning design",
            JVal.s "Mentoring"])])])]

/-- Embeds the inline Registered Nurse override record returned by `get_job_data` (src/job_api_integration.py, lines 668-767). -/
def nurse_data : JVal :=
  JVal.obj [
    ("job_title", JVal.s "Registered Nurse"),
    ("occupation_code", JVal.s "29-1141"),
    ("job_category", JVal.s "Healthcare"),
    ("source", JVal.s "enhanced_data"),
    ("latest_employment", JVal.s "3130600"),
    ("projections", JVal.obj [
      ("current_employment", JVal.i 3130600),
      ("projected_employment", JVal.i 3458200),
      ("percent_change", JVal.q (21/2)),
      ("annual_job_openings", JVal.i 203200)]),
    ("automation_probability", JVal.q 20),
    ("risk_scores", JVal.obj [
      ("year_1", JVal.q 15),
      ("year_5", JVal.q 30)]),
    ("risk_category", JVal.s "Low to Moderate"),
    ("risk_factors", JVal.arr [
      JVal.s "Administrative tasks can be automated",
      JVal.s "AI diagnostic support tools are increasingly sophisticated",
      JVal.s "Remote monitoring reduces need for some in-person care",
      JVal.s "Predictive analytics may reduce staffing requirements"]),
    ("protective_factors", JVal.arr [
      JVal.s "Direct patient care requires human empathy and dexterity",
      JVal.s "Complex decision-making in emergency situations",
      JVal.s "Patient education and emotional support remain human-centered",
      JVal.s "Physical assessment and intervention skills are difficult to automate"]),
    ("trend_data", JVal.obj [
      ("years", JVal.arr [
        JVal.i 2020,
        JVal.i 2021,
        JVal.i 2022,
        JVal.i 2023,
        JVal.i 2024,
        JVal.i 2025]),
      ("employment", JVal.arr [
        JVal.i 2990000,
        JVal.i 3080000,
        JVal.i 3130600,
        JVal.i 3198000,
        JVal.i 3268000,
        JVal.i 3340000])]),
    ("similar_jobs", JVal.arr [
      JVal.obj [
        ("job_title", JVal.s "Nurse Practitioner"),
        ("occupation_code", JVal.s "29-1171"),
        ("year_1_risk", JVal.q 10),
        ("year_5_risk", JVal.q 20),
        ("risk_category", JVal.s "Low")],
      JVal.obj [
        ("job_title", JVal.s "Licensed Practical Nurse"),
        ("occupation_code", JVal.s "29-2061"),
        ("year_1_risk", JVal.q 20),
        ("year_5_risk", JVal.q 40),
        ("risk_category", JVal.s "Moderate")],
      JVal.obj [
        ("job_title", JVal.s "Physician Assistant"),
        ("occupation_code", JVal.s "29-1071"),
        ("year_1_risk", JVal.q 15),
        ("year_5_risk", JVal.q 25),
        ("risk_category", JVal.s "Low")],
      JVal.obj [
        ("job_title", JVal.s "Nursing Assistant"),
        ("occupation_code", JVal.s "31-1131"),
        ("year_1_risk", JVal.q 25),
        ("year_5_risk", JVal.q 45),
        ("risk_category", JVal.s "Moderate")]]),
    ("skills", JVal.obj [
      ("future_proof_skills", JVal.arr [
        JVal.s "Digital health technology proficiency",
        JVal.s "Data interpretation for patient monitoring",
        JVal.s "Telehealth service delivery",
        JVal.s "Advanced clinical assessment",
        JVal.s "Complex care coordination",
        JVal.s "AI-assisted diagnostics"]),
      ("skill_areas", JVal.obj [
        ("technical_skills", JVal.arr [
          JVal.s "Digital health record systems",
          JVal.s "Remote monitoring technology",
          JVal.s "Telehealth platforms",
          JVal.s "Medical device integration",
          JVal.s "Clinical decision support systems"]),
        ("soft_skills", JVal.arr [
          JVal.s "Complex communication",
          JVal.s "Empathetic care",
          JVal.s "Crisis management",
          JVal.s "Interdisciplinary collaboration",
          JVal.s "Patient advocacy",
          JVal.s "Ethical decision-making"]),
        ("transferable_skills", JVal.arr [
          JVal.s "Assessment and diagnosis",
          JVal.s "Critical thinking",
          JVal.s "Care coordination",
          JVal.s "Patient education",
          JVal.s "Resource management",
          JVal.s "Quality improvement"])])])]
/-- The external collaborators of `get_job_data` and the fallback helpers:
the `DATABASE_URL` environment variable, the `job_titles` SOC lookup
(lines 789-795; `Except.error` models a raised database exception, the
outer `Option` a missing row, the inner `Option` a NULL `soc_code`), and
the three `bls_connector` operations. -/
structure Env where
  database_url : Option String
  db_soc_lookup : String → Except String (Option (Option String))
  search_occupations : String → List (String × String)
  get_occupation_data : String → PyDict
  get_employment_projection : String → PyDict

/-- The process-local `_job_cache` dict (line 14), keyed by lower-cased
job title. -/
abbrev Cache := String → Option JVal

/-- Embeds `get_employment_trend` (lines 1976-2016): search for the
occupation, then return the provider's `employment_trend` entry if
present, else a literal unavailability record. A search result is a
`(code, title)` pair. -/
def get_employment_trend (env : Env) (job_title : String) : JVal :=
  match env.search_occupations job_title with
  | [] => JVal.obj [("status", JVal.s "error"),
      ("message", JVal.s "No matching occupation found")]
  | best_match :: _ =>
    let occ_code := best_match.1
    let bls_data := env.get_occupation_data occ_code
    match dictFind bls_data "employment_trend" with
    | Option.some v => v
    | Option.none =>
      JVal.obj [("error", JVal.s "trend_data_unavailable"),
        ("message", JVal.s ("Employment trend data not available for " ++ best_match.2)),
        ("job_title", JVal.s best_match.2),
        ("occupation_code", JVal.s occ_code)]

/-- Embeds the keyword-based category sniffing of `get_internal_job_data`
(lines 1556-1568): the first keyword group any of whose keywords occurs as
a substring of the lower-cased title wins; the Technology group is tested
first and its keyword list contains `"it"`. -/
def internal_job_category (job_title : String) : String :=
  if ["develop", "program", "engineer", "tech", "data", "it"].any
      (fun keyword => pyIn keyword (pyLower job_title)) then "Technology"
  else if ["market", "sales", "advertis", "brand", "content"].any
      (fun keyword => pyIn keyword (pyLower job_title)) then "Marketing & Sales"
  else if ["financ", "account", "audit", "tax", "invest"].any
      (fun keyword => pyIn keyword (pyLower job_title)) then "Finance"
  else if ["hr", "recruit", "human resource", "talent"].any
      (fun keyword => pyIn keyword (pyLower job_title)) then "Human Resources"
  else if ["teach", "educat", "instruct", "professor"].any
      (fun keyword => pyIn keyword (pyLower job_title)) then "Education"
  else if ["health", "medic", "nurs", "doctor", "care"].any
      (fun keyword => pyIn keyword (pyLower job_title)) then "Healthcare"
  else "General"

/-- Embeds the risk-level adjustment of `get_internal_job_data`
(lines 1570-1584): `(year_1_risk, year_5_risk)` from the job category,
defaulting to `(25, 45)`. -/
def internal_risk_scores (job_category : String) : ℚ × ℚ :=
  if job_category = "Technology" then (15, 35)
  else if job_category = "Healthcare" then (15, 30)
  else if job_category = "Education" then (20, 35)
  else (25, 45)

/-- Embeds `get_internal_job_data` (lines 1545-1673): the generic fallback
record when no occupation can be resolved. -/
def get_internal_job_data (env : Env) (job_title : String) : JVal :=
  let job_category := internal_job_category job_title
  let scores := internal_risk_scores job_category
  let year_1_risk := scores.1
  let year_5_risk := scores.2
  JVal.obj [
    ("job_title", JVal.s job_title),
    ("occupation_code", JVal.s "00-0000"),
    ("job_category", JVal.s job_category),
    ("source", JVal.s "internal_database"),
    ("latest_employment", JVal.s "Unknown"),
    ("automation_probability", JVal.q 45),
    ("risk_scores", JVal.obj [
      ("year_1", JVal.q year_1_risk),
      ("year_5", JVal.q year_5_risk)]),
    ("risk_category", JVal.s "Moderate"),
    ("risk_factors", JVal.arr [
      JVal.s "AI and automation technologies continue to advance",
      JVal.s "Routine aspects of many jobs are becoming automated",
      JVal.s "Digital transformation is changing skill requirements",
      JVal.s "Task-specific AI tools are becoming more specialized"]),
    ("protective_factors", JVal.arr [
      JVal.s "Complex problem-solving requires human judgment",
      JVal.s "Creative thinking and innovation are hard to automate",
      JVal.s "Human relationship management remains valuable",
      JVal.s "Strategic decision-making benefits from human experience"]),
    ("projections", JVal.obj [
      ("percent_change", JVal.s "Unknown"),
      ("annual_job_openings", JVal.s "Unknown")]),
    ("trend_data", get_employment_trend env job_title),
    ("similar_jobs", JVal.arr [
      JVal.obj [
        ("job_title", JVal.s "Related Position 1"),
        ("occupation_code", JVal.s "00-0001"),
        ("year_1_risk", JVal.q (max 10 (year_1_risk - 10))),
        ("year_5_risk", JVal.q (max 20 (year_5_risk - 10))),
        ("risk_category", JVal.s "Low to Moderate")],
      JVal.obj [
        ("job_title", JVal.s "Related Position 2"),
        ("occupation_code", JVal.s "00-0002"),
        ("year_1_risk", JVal.q (min 35 (year_1_risk + 5))),
        ("year_5_risk", JVal.q (min 60 (year_5_risk + 10))),
        ("risk_category", JVal.s "Moderate to High")]]),
    ("skills", JVal.obj [
      ("future_proof_skills", JVal.arr [
        JVal.s "Continuous learning",
        JVal.s "AI collaboration",
        JVal.s "Complex problem solving",
        JVal.s "Digital literacy",
        JVal.s "Human-centered service"]),
      ("skill_areas", JVal.obj [
        ("technical_skills", JVal.arr [
          JVal.s "Digital literacy",
          JVal.s "Data analysis",
          JVal.s "Technology adaptation",
          JVal.s "Software proficiency",
          JVal.s "Process improvement"]),
        ("soft_skills", JVal.arr [
          JVal.s "Critical thinking",
          JVal.s "Adaptive problem solving",
          JVal.s "Communication",
          JVal.s "Collaboration",
          JVal.s "Emotional intelligence"]),
        ("transferable_skills", JVal.arr [
          JVal.s "Project management",
          JVal.s "Cross-functional collaboration",
          JVal.s "Research and analysis",
          JVal.s "Strategic planning",
          JVal.s "Stakeholder management"])])])]

/-- Embeds `get_diagnosician_data` (lines 2290-2357): returns the literal
record and also writes it into `_job_cache` under three alias keys
(lines 2353-2355), unlike every other override getter. -/
def get_diagnosician_data (cache : Cache) : JVal × Cache :=
  let result := diagnosician_record
  (result, fun k =>
    if k = "diagnosician" then Option.some result
    else if k = "diagnoscian" then Option.some result
    else if k = "medical diagnostician" then Option.some result
    else cache k)

/-- The dictionary returned by `calculate_displacement_risk`
(lines 1881-1896) as a `JVal` object, in the source's key order, for
embedding into the assembled result at line 846. -/
def RiskResult.toJVal (r : RiskResult) : JVal :=
  JVal.obj [
    ("year_1_risk", JVal.q r.year_1_risk),
    ("year_5_risk", JVal.q r.year_5_risk),
    ("risk_category", JVal.s r.risk_category),
    ("risk_factors", JVal.arr (r.risk_factors.map JVal.s)),
    ("protective_factors", JVal.arr (r.protective_factors.map JVal.s)),
    ("analysis", JVal.s r.analysis),
    ("projected_growth", JVal.obj [
      ("percent_change", JVal.q r.percent_change),
      ("analysis", JVal.s r.growth_analysis)]),
    ("automation_probability", JVal.q r.automation_probability),
    ("wage_trend", JVal.s r.wage_trend),
    ("evolving_skills", JVal.arr (r.evolving_skills.map JVal.s))]

/-- Embeds the BLS search fallback used at lines 799-805, 808-814 and
816-822 of `get_job_data`: the first match gives
`(occ_code, standardized_title)`; no match means the caller falls back to
`get_internal_job_data`. -/
def bls_resolve (env : Env) (job_title : String) : Option (String × String) :=
  match env.search_occupations job_title with
  | [] => Option.none
  | best_match :: _ => Option.some (best_match.1, best_match.2)

/-- Embeds the occupation resolution step of `get_job_data`
(lines 785-822): a database SOC-code lookup when `DATABASE_URL` is set,
accepted only when the row exists and its code is truthy and not the
`"00-0000"` sentinel (line 795); every other outcome, including a raised
database exception, falls back to the BLS search. -/
def resolve_occupation (env : Env) (job_title : String) : Option (String × String) :=
  match env.database_url with
  | Option.some _ =>
    match env.db_soc_lookup job_title with
    | Except.ok (Option.some (Option.some code)) =>
      if code ≠ "" ∧ code ≠ "00-0000" then Option.some (code, job_title)
      else bls_resolve env job_title
    | _ => bls_resolve env job_title
  | Option.none => bls_resolve env job_title

/-- Embeds the special-title override dispatch of `get_job_data`
(lines 662-783): the `if`/`elif` chain on the lower-cased title, returning
the corresponding hand-authored record, or `Option.none` when no special
title matches. The cache is threaded through because the diagnosician
getter writes to it (lines 2353-2355); every other branch returns it
unchanged. -/
def special_case_record (cache : Cache) (job_title : String) :
    Option (JVal × Cache) :=
  if pyLower job_title = "project manager" then
    Option.some (get_project_manager_data, cache)
  else if pyLower job_title = "nurse" ∨ pyLower job_title = "registered nurse" then
    Option.some (nurse_data, cache)
  else if pyLower job_title = "retail sales" ∨ pyLower job_title = "retail salesperson"
      ∨ pyLower job_title = "sales associate" then
    Option.some (get_retail_sales_data, cache)
  else if pyLower job_title = "cook" ∨ pyLower job_title = "chef"
      ∨ pyLower job_title = "food preparation" then
    Option.some (get_cook_data, cache)
  else if pyLower job_title = "business analyst"
      ∨ pyLower job_title = "business systems analyst" then
    Option.some (get_business_analyst_data, cache)
  else if pyLower job_title = "diagnosician" ∨ pyLower job_title = "diagnoscian"
      ∨ pyLower job_title = "medical diagnostician" then
    Option.some (get_diagnosician_data cache)
  else if pyLower job_title = "ui developer" ∨ pyLower job_title = "ui designer"
      ∨ pyLower job_title = "user interface developer" then
    Option.some (get_ui_developer_data, cache)
  else if pyLower job_title = "web developer" ∨ pyLower job_title = "web programmer"
      ∨ pyLower job_title = "website developer" then
    Option.some (get_web_developer_data, cache)
  else if pyLower job_title = "teacher" ∨ pyLower job_title = "educator"
      ∨ pyLower job_title = "instructor"
      ∨ pyLower job_title = "elementary school teachers"
      ∨ pyLower job_title = "elementary teacher"
      ∨ pyLower job_title = "middle school teachers"
      ∨ pyLower job_title = "middle school teacher" then
    Option.some (get_teacher_data job_title, cache)
  else if pyLower job_title = "court reporter"
      ∨ pyLower job_title = "digital court reporter"
      ∨ pyLower job_title = "stenographer" then
    Option.some (get_court_reporter_data, cache)
  else
    Option.none

/-- Embeds the resolution-and-assembly path of `get_job_data`
(lines 785-852): occupation resolution with the internal fallback
(uncached), then BLS data fetch, risk classification, record assembly,
and the cache write at line 850 under the lower-cased queried title. A
raised exception (from a malformed provider `percent_change`, line 1701)
is `Except.error` and leaves the cache unchanged. -/
def bls_path (env : Env) (cache : Cache) (job_title : String) :
    Except String (JVal × Cache) :=
  match resolve_occupation env job_title with
  | Option.none => Except.ok (get_internal_job_data env job_title, cache)
  | Option.some resolved =>
    let occ_code := resolved.1
    let standardized_title := resolved.2
    let occupation_data := env.get_occupation_data occ_code
    let projection_data := env.get_employment_projection occ_code
    match calculate_displacement_risk standardized_title occ_code
        occupation_data projection_data with
    | Except.error e => Except.error e
    | Except.ok risk_data =>
      let result := JVal.obj [
        ("job_title", JVal.s standardized_title),
        ("occupation_code", JVal.s occ_code),
        ("source", JVal.s "bls_api"),
        ("employment_data", dictGet occupation_data "data" (JVal.arr [])),
        ("latest_employment", dictGet occupation_data "latest_value" JVal.none),
        ("projections", dictGet projection_data "projections" (JVal.obj [])),
        ("risk_analysis", risk_data.toJVal)]
      Except.ok (result,
        fun k => if k = pyLower job_title then Option.some result else cache k)

/-- Embeds `get_job_data` (lines 648-852) as a function of the external
environment and the `_job_cache` state: the cache check (lines 658-660),
then the special-title override dispatch (lines 662-783), then the
resolution-and-assembly path (lines 785-852). -/
def get_job_data (env : Env) (cache : Cache) (job_title : String) :
    Except String (JVal × Cache) :=
  match cache (pyLower job_title) with
  | Option.some cached => Except.ok (cached, cache)
  | Option.none =>
    match special_case_record cache job_title with
    | Option.some out => Except.ok out
    | Option.none => bls_path env cache job_title

/-!
The second copy of the classifier, embedded from
`src/job_api_integration_updated.py` (`calculate_displacement_risk`,
lines 1165-1386, and `generate_analysis_text`, lines 1389-1410, both
textually identical to the originals); line numbers inside this
namespace refer to that file. The value-carrying structures
`BaseAssessment`, `GroupState` and `RiskResult` are shared with the
first copy.
-/

namespace Updated

/-- Embeds `generate_analysis_text` (lines 1389-1410). The
`risk_factors`/`protective_factors` arguments are accepted and ignored,
exactly as in the source. -/
def generate_analysis_text (job_title : String) (risk_category : String)
    (risk_factors : List String) (protective_factors : List String) : String :=
  if risk_category = "Very High" then
    job_title ++ "s face extremely high displacement risk as AI and automation technologies advance rapidly. Within 5 years, most routine aspects of this role may be automated."
  else if risk_category = "High" then
    job_title ++ "s face significant displacement risk, though roles requiring complex judgment and specialized skills will be more resilient to automation."
  else if risk_category = "Moderate" then
    job_title ++ "s face moderate automation risk. While some aspects of the role may be automated, human expertise will remain valuable, especially for complex tasks."
  else
    job_title ++ "s have relatively low displacement risk due to the complexity, creativity, or human elements required in this role. Technology will likely augment rather than replace these positions."

/-- Embeds lines 1190-1220 of `calculate_displacement_risk`: the base risk
bucket chosen from `percent_change`, starting from empty factor lists
(lines 1183-1184). -/
def baseAssessment (percent_change : ℚ) : BaseAssessment :=
  if percent_change ≤ -20 then
    { year_1_risk := 60, year_5_risk := 90, risk_category := "Very High",
      risk_factors := ["BLS projects significant employment decline for this occupation"],
      protective_factors := [],
      growth_analysis := "Significant decline projected" }
  else if percent_change ≤ -10 then
    { year_1_risk := 40, year_5_risk := 75, risk_category := "High",
      risk_factors := ["BLS projects moderate employment decline for this occupation"],
      protective_factors := [],
      growth_analysis := "Moderate decline projected" }
  else if percent_change ≤ 0 then
    { year_1_risk := 25, year_5_risk := 50, risk_category := "Moderate",
      risk_factors := ["BLS projects slight employment decline for this occupation"],
      protective_factors := [],
      growth_analysis := "Slight decline projected" }
  else if percent_change ≤ 10 then
    { year_1_risk := 15, year_5_risk := 35, risk_category := "Moderate",
      risk_factors := [],
      protective_factors := ["BLS projects slight employment growth for this occupation"],
      growth_analysis := "Slight growth projected" }
  else
    { year_1_risk := 10, year_5_risk := 25, risk_category := "Low",
      risk_factors := [],
      protective_factors := ["BLS projects significant employment growth for this occupation"],
      growth_analysis := "Strong growth projected" }

/-- Embeds the SOC-group adjustment `if`/`elif` chain of
`calculate_displacement_risk` (lines 1230-1359), acting on the state after
the base assessment. The management group (`"11"`) overwrites the two risk
values instead of adding a delta (lines 1287-1288). -/
def groupAdjust (soc_major_group : String) (st : GroupState) : GroupState :=
  if soc_major_group = "43" then
    { st with
      risk_factors := st.risk_factors ++
        ["Administrative tasks are highly susceptible to automation",
         "Document processing can be handled by AI systems"],
      year_1_risk := st.year_1_risk + 10,
      year_5_risk := st.year_5_risk + 15,
      automation_probability := 3/4,
      wage_trend := "Declining",
      evolving_skills := ["Advanced data analysis", "Digital process management",
        "Client relationship management"] }
  else if soc_major_group = "15" then
    { st with
      risk_factors := st.risk_factors ++ ["Automated code generation is improving rapidly"],
      protective_factors := st.protective_factors ++
        ["Complex problem-solving still requires human insight"],
      automation_probability := 7/20,
      wage_trend := "Increasing",
      evolving_skills := ["AI/ML engineering", "Cloud architecture", "Cybersecurity expertise"] }
  else if soc_major_group = "29" then
    { st with
      protective_factors := st.protective_factors ++
        ["Direct patient care requires human empathy and dexterity"],
      year_1_risk := st.year_1_risk - 5,
      year_5_risk := st.year_5_risk - 10,
      automation_probability := 1/5,
      wage_trend := "Increasing",
      evolving_skills := ["Telemedicine competence", "Medical technology operation",
        "Patient data interpretation"] }
  else if soc_major_group = "53" then
    { st with
      risk_factors := st.risk_factors ++
        ["Autonomous vehicle technology is developing rapidly"],
      year_1_risk := st.year_1_risk + 5,
      year_5_risk := st.year_5_risk + 10,
      automation_probability := 13/20,
      wage_trend := "Stable to declining",
      evolving_skills := ["Advanced vehicle systems", "Logistics optimization",
        "Remote monitoring"] }
  else if soc_major_group = "11" then
    { st with
      protective_factors := st.protective_factors ++
        ["Strategic decision-making requires human judgment",
         "Complex stakeholder management requires human relationships"],
      risk_factors := st.risk_factors ++
        ["Project management software becoming increasingly automated"],
      year_1_risk := 35,
      year_5_risk := 60,
      automation_probability := 9/20,
      wage_trend := "Stable to increasing, depending on specialization",
      evolving_skills := ["AI tools implementation and oversight",
        "Data-driven decision making", "Agile management practices",
        "Cross-functional leadership", "Change management expertise"] }
  else if soc_major_group = "25" then
    { st with
      protective_factors := st.protective_factors ++
        ["Teaching requires adaptability and emotional intelligence"],
      year_1_risk := st.year_1_risk - 3,
      year_5_risk := st.year_5_risk - 7,
      automation_probability := 3/10,
      wage_trend := "Stable",
      evolving_skills := ["Educational technology proficiency",
        "Personalized learning approaches", "Digital content creation"] }
  else if soc_major_group = "41" then
    { st with
      risk_factors := st.risk_factors ++
        ["Online shopping and self-service technologies reduce demand"],
      year_1_risk := st.year_1_risk + 8,
      year_5_risk := st.year_5_risk + 12,
      automation_probability := 11/20,
      wage_trend := "Declining for basic roles, increasing for consultative sales",
      evolving_skills := ["Consultative selling", "Customer experience design",
        "Digital marketing"] }
  else if soc_major_group = "35" then
    { st with
      risk_factors := st.risk_factors ++
        ["Food preparation and service seeing increased automation"],
      year_1_risk := st.year_1_risk + 7,
      year_5_risk := st.year_5_risk + 14,
      automation_probability := 3/5,
      wage_trend := "Stable to declining",
      evolving_skills := ["Culinary specialization", "Customer experience",
        "Food safety and quality management"] }
  else if soc_major_group = "51" then
    { st with
      risk_factors := st.risk_factors ++
        ["Manufacturing processes increasingly automated"],
      year_1_risk := st.year_1_risk + 12,
      year_5_risk := st.year_5_risk + 18,
      automation_probability := 4/5,
      wage_trend := "Declining",
      evolving_skills := ["Advanced manufacturing tech", "Quality control systems",
        "Process optimization"] }
  else
    { st with
      automation_probability := 2/5,
      wage_trend := "Varies by specialization",
      evolving_skills := ["Digital literacy", "Data analysis",
        "Adaptability and continuous learning"] }

/-- Embeds the body of `calculate_displacement_risk` (lines 1183-1386)
once `percent_change` has been read off as a number: base bucket
(lines 1190-1220), SOC-group adjustment (lines 1222-1359), clamping and
ordering normalization (lines 1361-1366), and the analysis text
(line 1369). -/
def calculate_displacement_risk_core (job_title : String) (occ_code : String)
    (percent_change : ℚ) : RiskResult :=
  let base := baseAssessment percent_change
  let soc_major_group := socMajorGroup occ_code
  let st := groupAdjust soc_major_group
    { year_1_risk := base.year_1_risk, year_5_risk := base.year_5_risk,
      risk_factors := base.risk_factors,
      protective_factors := base.protective_factors,
      automation_probability := 0, wage_trend := "Stable",
      evolving_skills := [] }
  let year_1_risk := max 5 (min 95 st.year_1_risk)
  let year_5_risk := max 10 (min 95 st.year_5_risk)
  let year_5_risk := max year_5_risk (year_1_risk + 5)
  { year_1_risk := year_1_risk,
    year_5_risk := year_5_risk,
    risk_category := base.risk_category,
    risk_factors := st.risk_factors,
    protective_factors := st.protective_factors,
    analysis := generate_analysis_text job_title base.risk_category
      st.risk_factors st.protective_factors,
    percent_change := percent_change,
    growth_analysis := base.growth_analysis,
    automation_probability := st.automation_probability,
    wage_trend := st.wage_trend,
    evolving_skills := st.evolving_skills }

/-- Embeds `calculate_displacement_risk` (lines 1165-1386).
`projection_data.get("projections", {})` must be a dict (else Python's
`.get` on it raises `AttributeError`), and its `"percent_change"` entry,
defaulting to `0` when absent (line 1188), must be numeric (else the
comparison at line 1191 raises `TypeError`); a raised exception is
modelled as `Except.error`. `occupation_data` is accepted and unused,
exactly as in the source. -/
def calculate_displacement_risk (job_title : String) (occ_code : String)
    (occupation_data : PyDict) (projection_data : PyDict) :
    Except String RiskResult :=
  match dictGet projection_data "projections" (JVal.obj []) with
  | JVal.obj projections =>
    match jnum (dictGet projections "percent_change" (JVal.i 0)) with
    | Option.some percent_change =>
      Except.ok (calculate_displacement_risk_core job_title occ_code percent_change)
    | Option.none =>
      Except.error "TypeError: comparison of non-numeric percent_change with int"
  | _ => Except.error "AttributeError: projections value has no method get"

end Updated
/-- Field lookup on a `JVal` object, for stating properties of assembled
records; `Option.none` on non-objects and missing keys. -/
def jget (v : JVal) (k : String) : Option JVal :=
  match v with
  | JVal.obj fields => dictFind fields k
  | _ => Option.none

/-- A concrete environment for witnesses: no database, and a provider
that returns no matches and empty data. -/
def envTrivial : Env :=
  { database_url := Option.none,
    db_soc_lookup := fun _ => Except.ok Option.none,
    search_occupations := fun _ => [],
    get_occupation_data := fun _ => [],
    get_employment_projection := fun _ => [] }

/-- The empty `_job_cache`, the state at process start. -/
def emptyCache : Cache := fun _ => Option.none

theorem baseAssessment_year_1_bounds (percent_change : ℚ) :
    10 ≤ (baseAssessment percent_change).year_1_risk ∧
      (baseAssessment percent_change).year_1_risk ≤ 60 := by
  unfold baseAssessment
  split_ifs <;> norm_num

theorem baseAssessment_year_5_bounds (percent_change : ℚ) :
    25 ≤ (baseAssessment percent_change).year_5_risk ∧
      (baseAssessment percent_change).year_5_risk ≤ 90 := by
  unfold baseAssessment
  split_ifs <;> norm_num

theorem groupAdjust_year_1_le (g : String) (st : GroupState)
    (h : st.year_1_risk ≤ 60) : (groupAdjust g st).year_1_risk ≤ 72 := by
  unfold groupAdjust
  split_ifs <;> simp <;> linarith
theorem classifier_ok_core (job_title occ_code : String)
    (occupation_data projection_data : PyDict) (r : RiskResult)
    (h : calculate_displacement_risk job_title occ_code occupation_data
      projection_data = Except.ok r) :
    ∃ percent_change : ℚ,
      r = calculate_displacement_risk_core job_title occ_code percent_change := by
  unfold calculate_displacement_risk at h
  split at h
  · split at h
    · exact ⟨_, by injection h with h; exact h.symm⟩
    · exact absurd h (by simp)
  · exact absurd h (by simp)

theorem core_year_5_ge (job_title occ_code : String) (percent_change : ℚ) :
    (calculate_displacement_risk_core job_title occ_code percent_change).year_1_risk + 5
      ≤ (calculate_displacement_risk_core job_title occ_code percent_change).year_5_risk := by
  simp only [calculate_displacement_risk_core]
  exact le_max_right _ _
/-- C1: for every occupation code and every percent_change value (including
absent), the record returned by `calculate_displacement_risk` satisfies
`year_5_risk ≥ year_1_risk + 5` after the Step 3 normalization, even when
group deltas push the two values out of order. -/
theorem classifier_year5_ge_year1_plus5
    (job_title occ_code : String) (occupation_data projection_data : PyDict)
    (r : RiskResult)
    (h : calculate_displacement_risk job_title occ_code occupation_data
      projection_data = Except.ok r) :
    r.year_1_risk + 5 ≤ r.year_5_risk := by
  obtain ⟨pc, rfl⟩ := classifier_ok_core _ _ _ _ _ h
  exact core_year_5_ge _ _ _

/-- Witness for C1 at a concrete input: the healthcare group with a steep
decline, where the group delta pushes `year_5_risk` down to 80 while
`year_1_risk` is 55. -/
theorem classifier_year5_ge_year1_plus5_witness :
    (calculate_displacement_risk_core "Nurse" "29-1141" (-25)).year_1_risk + 5
      ≤ (calculate_displacement_risk_core "Nurse" "29-1141" (-25)).year_5_risk :=
  classifier_year5_ge_year1_plus5 "Nurse" "29-1141" []
    [("projections", JVal.obj [("percent_change", JVal.i (-25))])]
    (calculate_displacement_risk_core "Nurse" "29-1141" (-25)) rfl
theorem core_bounds (job_title occ_code : String) (percent_change : ℚ) :
    5 ≤ (calculate_displacement_risk_core job_title occ_code percent_change).year_1_risk ∧
    (calculate_displacement_risk_core job_title occ_code percent_change).year_1_risk ≤ 95 ∧
    10 ≤ (calculate_displacement_risk_core job_title occ_code percent_change).year_5_risk ∧
    (calculate_displacement_risk_core job_title occ_code percent_change).year_5_risk ≤ 95 := by
  have hb := baseAssessment_year_1_bounds percent_change
  have h72 := groupAdjust_year_1_le (socMajorGroup occ_code)
    { year_1_risk := (baseAssessment percent_change).year_1_risk,
      year_5_risk := (baseAssessment percent_change).year_5_risk,
      risk_factors := (baseAssessment percent_change).risk_factors,
      protective_factors := (baseAssessment percent_change).protective_factors,
      automation_probability := 0, wage_trend := "Stable",
      evolving_skills := [] } hb.2
  simp only [calculate_displacement_risk_core]
  refine ⟨le_max_left _ _, max_le (by norm_num) (min_le_left _ _), ?_, ?_⟩
  · exact le_trans (le_max_left _ _) (le_max_left _ _)
  · refine max_le (max_le (by norm_num) (min_le_left _ _)) ?_
    have : max 5 (min 95 (groupAdjust (socMajorGroup occ_code)
        { year_1_risk := (baseAssessment percent_change).year_1_risk,
          year_5_risk := (baseAssessment percent_change).year_5_risk,
          risk_factors := (baseAssessment percent_change).risk_factors,
          protective_factors := (baseAssessment percent_change).protective_factors,
          automation_probability := 0, wage_trend := "Stable",
          evolving_skills := [] }).year_1_risk) ≤ 72 :=
      max_le (by norm_num) (le_trans (min_le_right _ _) h72)
    linarith
/-- C2: for every occupation code and every percent_change value, the
record returned by `calculate_displacement_risk` satisfies
`year_1_risk ∈ [5, 95]` and `year_5_risk ∈ [10, 95]`; in particular the
final step that forces `year_5_risk` to at least `year_1_risk + 5`, which
runs after clamping, never pushes `year_5_risk` above 95 (the adjusted
`year_1_risk` never exceeds 72). -/
theorem classifier_risk_bounds
    (job_title occ_code : String) (occupation_data projection_data : PyDict)
    (r : RiskResult)
    (h : calculate_displacement_risk job_title occ_code occupation_data
      projection_data = Except.ok r) :
    5 ≤ r.year_1_risk ∧ r.year_1_risk ≤ 95 ∧
    10 ≤ r.year_5_risk ∧ r.year_5_risk ≤ 95 := by
  obtain ⟨pc, rfl⟩ := classifier_ok_core _ _ _ _ _ h
  exact core_bounds _ _ _

/-- Witness for C2 at a concrete input: the production group (delta
+12/+18) on the steepest-decline bucket, which exercises the upper
clamps. -/
theorem classifier_risk_bounds_witness :
    5 ≤ (calculate_displacement_risk_core "Assembler" "51-2028" (-30)).year_1_risk ∧
    (calculate_displacement_risk_core "Assembler" "51-2028" (-30)).year_1_risk ≤ 95 ∧
    10 ≤ (calculate_displacement_risk_core "Assembler" "51-2028" (-30)).year_5_risk ∧
    (calculate_displacement_risk_core "Assembler" "51-2028" (-30)).year_5_risk ≤ 95 :=
  classifier_risk_bounds "Assembler" "51-2028" []
    [("projections", JVal.obj [("percent_change", JVal.i (-30))])]
    (calculate_displacement_risk_core "Assembler" "51-2028" (-30)) rfl
theorem groupAdjust_11_year_1 (st : GroupState) :
    (groupAdjust "11" st).year_1_risk = 35 := by
  unfold groupAdjust
  rw [if_neg (by decide), if_neg (by decide), if_neg (by decide), if_neg (by decide),
    if_pos rfl]

theorem groupAdjust_11_year_5 (st : GroupState) :
    (groupAdjust "11" st).year_5_risk = 60 := by
  unfold groupAdjust
  rw [if_neg (by decide), if_neg (by decide), if_neg (by decide), if_neg (by decide),
    if_pos rfl]

theorem core_management (job_title occ_code : String) (percent_change : ℚ)
    (h : socMajorGroup occ_code = "11") :
    (calculate_displacement_risk_core job_title occ_code percent_change).year_1_risk = 35 ∧
    (calculate_displacement_risk_core job_title occ_code percent_change).year_5_risk = 60 := by
  simp only [calculate_displacement_risk_core, h, groupAdjust_11_year_1,
    groupAdjust_11_year_5]
  norm_num [max_def, min_def]
/-- C3: for every occupation code whose two-digit SOC prefix is `"11"`
(management) and every incoming percent_change,
`calculate_displacement_risk` returns exactly `year_1_risk = 35.0` and
`year_5_risk = 60.0`: the group adjustment overwrites the base-bucket
values rather than adding a delta, and normalization leaves them
unchanged. -/
theorem management_overwrite_exact
    (job_title occ_code : String) (occupation_data projection_data : PyDict)
    (r : RiskResult)
    (hsoc : socMajorGroup occ_code = "11")
    (h : calculate_displacement_risk job_title occ_code occupation_data
      projection_data = Except.ok r) :
    r.year_1_risk = 35 ∧ r.year_5_risk = 60 := by
  obtain ⟨pc, rfl⟩ := classifier_ok_core _ _ _ _ _ h
  exact core_management _ _ _ hsoc

/-- Witness for C3 at a concrete input: a management occupation with a
steep-decline percent_change whose base bucket (60/90) is overwritten
to 35/60. -/
theorem management_overwrite_exact_witness :
    socMajorGroup "11-1021" = "11" ∧
    (calculate_displacement_risk_core "Operations Manager" "11-1021" (-25)).year_1_risk = 35 ∧
    (calculate_displacement_risk_core "Operations Manager" "11-1021" (-25)).year_5_risk = 60 :=
  ⟨by decide, management_overwrite_exact "Operations Manager" "11-1021" []
    [("projections", JVal.obj [("percent_change", JVal.i (-25))])]
    (calculate_displacement_risk_core "Operations Manager" "11-1021" (-25)) (by decide) rfl⟩
/-- Counterexample to C4: at `percent_change = -20` the base bucket is
Very High with `year_5_risk = 90`, but for the management group the
adjustment overwrites `year_5_risk` to 60, so the claimed
`year_5_risk ≥ 85` after the group delta fails. -/
theorem very_high_after_group_below_85 :
    ((-20 : ℚ) ≤ -20) ∧
    calculate_displacement_risk "Operations Manager" "11-1021" []
        [("projections", JVal.obj [("percent_change", JVal.i (-20))])]
      = Except.ok (calculate_displacement_risk_core "Operations Manager" "11-1021" (-20)) ∧
    (calculate_displacement_risk_core "Operations Manager" "11-1021" (-20)).year_5_risk = 60 ∧
    ¬ (85 ≤ (calculate_displacement_risk_core "Operations Manager"
        "11-1021" (-20)).year_5_risk) := by
  have h60 := (core_management "Operations Manager" "11-1021" (-20) (by decide)).2
  refine ⟨by norm_num, rfl, h60, ?_⟩
  rw [h60]
  norm_num
/-- C4 (amended): for every percent_change ≤ -20 the classifier yields
`risk_category = "Very High"` with `year_5_risk` exactly 90 before the
SOC-group delta, and `year_5_risk ≥ 60` after the group delta and
clamping, for every SOC occupation group (the minimum 60 is attained by
the management overwrite; every non-management group stays ≥ 80). -/
theorem very_high_amended (job_title occ_code : String) (percent_change : ℚ)
    (h : percent_change ≤ -20) :
    (baseAssessment percent_change).risk_category = "Very High" ∧
    (baseAssessment percent_change).year_5_risk = 90 ∧
    (calculate_displacement_risk_core job_title occ_code
      percent_change).risk_category = "Very High" ∧
    60 ≤ (calculate_displacement_risk_core job_title occ_code
      percent_change).year_5_risk := by
  have hb : baseAssessment percent_change =
      { year_1_risk := 60, year_5_risk := 90, risk_category := "Very High",
        risk_factors := ["BLS projects significant employment decline for this occupation"],
        protective_factors := [],
        growth_analysis := "Significant decline projected" } := by
    unfold baseAssessment
    rw [if_pos h]
  refine ⟨by rw [hb], by rw [hb], ?_, ?_⟩
  · simp [calculate_displacement_risk_core, hb]
  · simp only [calculate_displacement_risk_core, hb]
    unfold groupAdjust
    split_ifs <;> norm_num [max_def, min_def]

/-- Witness for C4 (amended) at a concrete input: the administrative
group at percent_change -30. -/
theorem very_high_amended_witness :
    ((-30 : ℚ) ≤ -20) ∧
    ((baseAssessment (-30)).risk_category = "Very High" ∧
     (baseAssessment (-30)).year_5_risk = 90 ∧
     (calculate_displacement_risk_core "File Clerk" "43-4071"
       (-30)).risk_category = "Very High" ∧
     60 ≤ (calculate_displacement_risk_core "File Clerk" "43-4071"
       (-30)).year_5_risk) :=
  ⟨by norm_num, very_high_amended "File Clerk" "43-4071" (-30) (by norm_num)⟩
/-- Counterexample to C6: with a non-numeric `percent_change` (the string
`"Unknown"`, as the fallback records themselves store), the comparison at
line 1701 raises a `TypeError` instead of coercing the value to 0 and
returning a record. -/
theorem malformed_percent_change_raises :
    calculate_displacement_risk "Software Developer" "15-1252" []
        [("projections", JVal.obj [("percent_change", JVal.s "Unknown")])]
      = Except.error "TypeError: comparison of non-numeric percent_change with int" :=
  rfl

/-- C6 (amended): `calculate_displacement_risk` returns a best-effort
record whenever the `projections` entry of the projection dictionary
(defaulting to the empty dict) is a dict whose `percent_change` is absent
(then coerced to 0 via the `.get` default) or numeric; a non-numeric
`percent_change` instead raises `TypeError`, and a non-dict `projections`
value raises `AttributeError`. -/
theorem classifier_totality_amended
    (job_title occ_code : String) (occupation_data projection_data : PyDict)
    (projections : PyDict) (percent_change : ℚ)
    (hproj : dictGet projection_data "projections" (JVal.obj [])
      = JVal.obj projections)
    (hpc : jnum (dictGet projections "percent_change" (JVal.i 0))
      = Option.some percent_change) :
    calculate_displacement_risk job_title occ_code occupation_data projection_data
      = Except.ok (calculate_displacement_risk_core job_title occ_code
          percent_change) := by
  simp only [calculate_displacement_risk, hproj, hpc]

/-- Witness for C6 (amended) at a concrete input: a projection dictionary
with no `percent_change` key, treated as 0. -/
theorem classifier_totality_amended_witness :
    dictGet ([("projections", JVal.obj [("annual_job_openings", JVal.i 5000)])] : PyDict)
        "projections" (JVal.obj []) = JVal.obj [("annual_job_openings", JVal.i 5000)] ∧
    jnum (dictGet [("annual_job_openings", JVal.i 5000)] "percent_change" (JVal.i 0))
        = Option.some 0 ∧
    calculate_displacement_risk "Cashier" "41-2011" []
        [("projections", JVal.obj [("annual_job_openings", JVal.i 5000)])]
      = Except.ok (calculate_displacement_risk_core "Cashier" "41-2011" 0) :=
  ⟨rfl, rfl, classifier_totality_amended "Cashier" "41-2011" []
    [("projections", JVal.obj [("annual_job_openings", JVal.i 5000)])]
    [("annual_job_openings", JVal.i 5000)] 0 rfl rfl⟩
/-- Counterexample to C7: the hand-authored Registered Nurse override
record returned by the assembler carries `risk_category`
`"Low to Moderate"`, which is outside the claimed four-value enum. -/
theorem risk_category_outside_enum :
    get_job_data envTrivial emptyCache "nurse"
      = Except.ok (nurse_data, emptyCache) ∧
    jget nurse_data "risk_category" = Option.some (JVal.s "Low to Moderate") ∧
    ¬ ("Low to Moderate" ∈ (["Low", "Moderate", "High", "Very High"] : List String)) :=
  ⟨rfl, rfl, by decide⟩
/-- C7 (amended): every record produced by the risk classifier has
`risk_category` in the four-value enum {Low, Moderate, High, Very High};
the hand-authored override records and the fallback `similar_jobs`
entries additionally use the labels `"Low to Moderate"` and
`"Moderate to High"`, which lie outside that enum. -/
theorem classifier_category_in_enum
    (job_title occ_code : String) (occupation_data projection_data : PyDict)
    (r : RiskResult)
    (h : calculate_displacement_risk job_title occ_code occupation_data
      projection_data = Except.ok r) :
    r.risk_category ∈ (["Low", "Moderate", "High", "Very High"] : List String) := by
  obtain ⟨pc, rfl⟩ := classifier_ok_core _ _ _ _ _ h
  show (baseAssessment pc).risk_category ∈ _
  unfold baseAssessment
  split_ifs <;> simp

/-- Witness for C7 (amended) at a concrete input. -/
theorem classifier_category_in_enum_witness :
    (calculate_displacement_risk_core "Cook" "35-2014" 3).risk_category
      ∈ (["Low", "Moderate", "High", "Very High"] : List String) :=
  classifier_category_in_enum "Cook" "35-2014" []
    [("projections", JVal.obj [("percent_change", JVal.i 3)])]
    (calculate_displacement_risk_core "Cook" "35-2014" 3) rfl
/-- C10: in the generic fallback `get_internal_job_data` the Technology
keyword test runs first and matches on substrings, and its keyword list
includes `"it"`; therefore every title containing `"it"` (after
lower-casing) is assigned `job_category = "Technology"` with risk scores
15.0/35.0, even when a later keyword group (such as Human Resources via
`"recruit"`) would otherwise match. -/
theorem technology_keyword_it_first (env : Env) (job_title : String)
    (h : pyIn "it" (pyLower job_title) = true) :
    internal_job_category job_title = "Technology" ∧
    jget (get_internal_job_data env job_title) "job_category"
      = Option.some (JVal.s "Technology") ∧
    jget (get_internal_job_data env job_title) "risk_scores"
      = Option.some (JVal.obj [("year_1", JVal.q 15), ("year_5", JVal.q 35)]) := by
  have hcat : internal_job_category job_title = "Technology" := by
    unfold internal_job_category
    rw [if_pos]
    simp [h]
  refine ⟨hcat, ?_, ?_⟩ <;>
    simp [get_internal_job_data, hcat, internal_risk_scores, jget, dictFind,
      List.find?]

/-- Witness for C10 at the concrete title "Recruiter", which contains
"it" as a substring and would otherwise fall in the Human Resources
group via "recruit". -/
theorem technology_keyword_it_first_witness :
    pyIn "it" (pyLower "Recruiter") = true ∧
    (internal_job_category "Recruiter" = "Technology" ∧
     jget (get_internal_job_data envTrivial "Recruiter") "job_category"
       = Option.some (JVal.s "Technology") ∧
     jget (get_internal_job_data envTrivial "Recruiter") "risk_scores"
       = Option.some (JVal.obj [("year_1", JVal.q 15), ("year_5", JVal.q 35)])) :=
  ⟨by decide, technology_keyword_it_first envTrivial "Recruiter" (by decide)⟩
/-- C9: the two copies of `calculate_displacement_risk`, in
`job_api_integration.py` and `job_api_integration_updated.py`, are
extensionally equal: for every job title, occupation code, occupation
data and projection data, both return the same record (the two source
texts are identical, so the two embeddings are definitionally equal). -/
theorem updated_classifier_extensionally_equal :
    ∀ (job_title occ_code : String) (occupation_data projection_data : PyDict),
      Updated.calculate_displacement_risk job_title occ_code occupation_data
          projection_data
        = calculate_displacement_risk job_title occ_code occupation_data
          projection_data :=
  fun _ _ _ _ => rfl
theorem special_case_record_nurse_keys (c : Cache) (t : String)
    (r : JVal) (c' : Cache)
    (h : special_case_record c t = Option.some (r, c')) :
    c' "nurse" = c "nurse" ∧ c' "registered nurse" = c "registered nurse" := by
  unfold special_case_record at h
  split_ifs at h <;>
    (injection h with h
     try (injection h with h1 h2
          subst h2)
     exact ⟨rfl, rfl⟩)

theorem special_case_record_none_nurse (c : Cache) (t : String)
    (h : special_case_record c t = Option.none) :
    ¬ (pyLower t = "nurse" ∨ pyLower t = "registered nurse") := by
  unfold special_case_record at h
  split_ifs at h with h1 h2 h3 h4 h5 h6 h7 h8 h9 h10
  exact h2

theorem bls_path_nurse_keys (env : Env) (c : Cache) (t : String)
    (r : JVal) (c' : Cache)
    (hn : ¬ (pyLower t = "nurse" ∨ pyLower t = "registered nurse"))
    (h : bls_path env c t = Except.ok (r, c')) :
    c' "nurse" = c "nurse" ∧ c' "registered nurse" = c "registered nurse" := by
  push_neg at hn
  unfold bls_path at h
  split at h
  · injection h with h
    injection h with h1 h2
    subst h2
    exact ⟨rfl, rfl⟩
  · dsimp only at h
    split at h
    · exact absurd h (by simp)
    · injection h with h
      injection h with h1 h2
      subst h2
      constructor
      · dsimp only
        rw [if_neg (fun he => hn.1 he.symm)]
      · dsimp only
        rw [if_neg (fun he => hn.2 he.symm)]

theorem get_job_data_preserves_nurse_keys (env : Env) (c : Cache) (t : String)
    (r : JVal) (c' : Cache)
    (h : get_job_data env c t = Except.ok (r, c')) :
    c' "nurse" = c "nurse" ∧ c' "registered nurse" = c "registered nurse" := by
  unfold get_job_data at h
  split at h
  · injection h with h
    injection h with h1 h2
    subst h2
    exact ⟨rfl, rfl⟩
  · split at h
    case _ out heq =>
      injection h with h
      exact special_case_record_nurse_keys c t r c' (heq.trans (congrArg _ h))
    case _ heq =>
      exact bls_path_nurse_keys env c t r c'
        (special_case_record_none_nurse c t heq) h
/-- The `_job_cache` states reachable in a process: empty at start
(line 14), then updated only by `get_job_data` calls (with any
environments); a raised exception leaves the cache unchanged. -/
inductive ReachableCache : Cache → Prop where
  | empty : ReachableCache emptyCache
  | step (env : Env) (c : Cache) (t : String) (r : JVal) (c' : Cache) :
      ReachableCache c → get_job_data env c t = Except.ok (r, c') →
      ReachableCache c'

theorem reachable_nurse_keys_none (c : Cache) (h : ReachableCache c) :
    c "nurse" = Option.none ∧ c "registered nurse" = Option.none := by
  induction h with
  | empty => exact ⟨rfl, rfl⟩
  | step env c t r c' hc hstep ih =>
    have hp := get_job_data_preserves_nurse_keys env c t r c' hstep
    exact ⟨hp.1.trans ih.1, hp.2.trans ih.2⟩

/-- C5: for every input title that case-insensitively equals "nurse" or
"registered nurse", and every reachable cache state, `get_job_data`
returns the hand-authored override record — with year-1 risk 15.0,
year-5 risk 30.0 and `risk_category` "Low to Moderate" — without invoking
the classifier or the projection provider (the environment is universally
quantified and the cache is returned unchanged), regardless of what the
projection provider would return, including an unavailable provider. -/
theorem nurse_override_precedence (env : Env) (c : Cache) (t : String)
    (hreach : ReachableCache c)
    (ht : pyLower t = "nurse" ∨ pyLower t = "registered nurse") :
    get_job_data env c t = Except.ok (nurse_data, c) ∧
    jget nurse_data "risk_scores"
      = Option.some (JVal.obj [("year_1", JVal.q 15), ("year_5", JVal.q 30)]) ∧
    jget nurse_data "risk_category" = Option.some (JVal.s "Low to Moderate") := by
  have hn := reachable_nurse_keys_none c hreach
  have hcache : c (pyLower t) = Option.none := by
    rcases ht with h | h <;> rw [h]
    · exact hn.1
    · exact hn.2
  have hspecial : special_case_record c t = Option.some (nurse_data, c) := by
    unfold special_case_record
    rcases ht with h | h <;> rw [h] <;>
      rw [if_neg (by decide), if_pos (by decide)]
  refine ⟨?_, rfl, rfl⟩
  unfold get_job_data
  rw [hcache, hspecial]

/-- Witness for C5 at the concrete title "Nurse" with the initial empty
cache and the trivial environment. -/
theorem nurse_override_precedence_witness :
    get_job_data envTrivial emptyCache "Nurse"
      = Except.ok (nurse_data, emptyCache) ∧
    jget nurse_data "risk_scores"
      = Option.some (JVal.obj [("year_1", JVal.q 15), ("year_5", JVal.q 30)]) ∧
    jget nurse_data "risk_category" = Option.some (JVal.s "Low to Moderate") :=
  nurse_override_precedence envTrivial emptyCache "Nurse"
    ReachableCache.empty (Or.inl (by decide))
/-- Counterexample to C8: for the special-case title "nurse" the override
record is returned before the cache write at line 850 is ever reached, so
after a first call the cache still has no entry for "nurse" and the second
call cannot be served from the cache. -/
theorem nurse_not_cached :
    get_job_data envTrivial emptyCache "nurse"
      = Except.ok (nurse_data, emptyCache) ∧
    emptyCache (pyLower "nurse") = Option.none :=
  ⟨rfl, rfl⟩

theorem special_case_record_cache (c : Cache) (t : String) (r : JVal) (c' : Cache)
    (h : special_case_record c t = Option.some (r, c')) :
    c' = c ∨ c' (pyLower t) = Option.some r := by
  unfold special_case_record at h
  split_ifs at h with h1 h2 h3 h4 h5 h6 h7 h8 h9 h10
  · injection h with h
    injection h with hr hc
    subst hc
    exact Or.inl rfl
  · injection h with h
    injection h with hr hc
    subst hc
    exact Or.inl rfl
  · injection h with h
    injection h with hr hc
    subst hc
    exact Or.inl rfl
  · injection h with h
    injection h with hr hc
    subst hc
    exact Or.inl rfl
  · injection h with h
    injection h with hr hc
    subst hc
    exact Or.inl rfl
  · injection h with h
    injection h with hr hc
    subst hc
    subst hr
    refine Or.inr ?_
    rcases h6 with h6 | h6 | h6 <;> rw [h6] <;> dsimp only <;>
      split_ifs <;>
        first
          | rfl
          | (exact absurd rfl (by assumption))
  · injection h with h
    injection h with hr hc
    subst hc
    exact Or.inl rfl
  · injection h with h
    injection h with hr hc
    subst hc
    exact Or.inl rfl
  · injection h with h
    injection h with hr hc
    subst hc
    exact Or.inl rfl
  · injection h with h
    injection h with hr hc
    subst hc
    exact Or.inl rfl

theorem bls_path_cache (env : Env) (c : Cache) (t : String) (r : JVal) (c' : Cache)
    (h : bls_path env c t = Except.ok (r, c')) :
    c' = c ∨ c' (pyLower t) = Option.some r := by
  unfold bls_path at h
  split at h
  · injection h with h
    injection h with hr hc
    subst hc
    exact Or.inl rfl
  · dsimp only at h
    split at h
    · exact absurd h (by simp)
    · injection h with h
      injection h with hr hc
      subst hc
      subst hr
      refine Or.inr ?_
      dsimp only
      rw [if_pos rfl]

/-- C8 (amended): calling the assembler twice with the same title (and a
fixed environment) returns the same record and the same cache; only the
resolved-occupation path (and the diagnosician aliases) writes the record
into the process-local cache keyed by the lower-cased title and serves it
on the second call — the other special-case override titles and the
generic-fallback titles are recomputed, deterministically, on every call
with the cache left unchanged. -/
theorem get_job_data_idempotent_amended (env : Env) (c : Cache) (t : String)
    (r : JVal) (c' : Cache)
    (h : get_job_data env c t = Except.ok (r, c')) :
    get_job_data env c' t = Except.ok (r, c') ∧
    (c' = c ∨ c' (pyLower t) = Option.some r) := by
  have hdisj : c' = c ∨ c' (pyLower t) = Option.some r := by
    unfold get_job_data at h
    split at h
    case _ cached heq =>
      injection h with h
      injection h with hr hc
      subst hc
      subst hr
      exact Or.inr heq
    case _ =>
      split at h
      case _ out heq =>
        injection h with h
        exact special_case_record_cache c t r c' (heq.trans (congrArg _ h))
      case _ heq =>
        exact bls_path_cache env c t r c' h
  refine ⟨?_, hdisj⟩
  rcases hdisj with rfl | hkey
  · exact h
  · unfold get_job_data
    rw [hkey]

/-- Witness for C8 (amended): a concrete first call on the trivial
environment falls back to the generic internal record and leaves the
cache unchanged; the theorem then gives the identical second call. -/
theorem get_job_data_idempotent_amended_witness :
    get_job_data envTrivial emptyCache "Quantum Plumber"
      = Except.ok (get_internal_job_data envTrivial "Quantum Plumber", emptyCache) ∧
    (get_job_data envTrivial emptyCache "Quantum Plumber"
       = Except.ok (get_internal_job_data envTrivial "Quantum Plumber", emptyCache) ∧
     (emptyCache = emptyCache ∨
      emptyCache (pyLower "Quantum Plumber")
        = Option.some (get_internal_job_data envTrivial "Quantum Plumber"))) :=
  ⟨rfl, get_job_data_idempotent_amended envTrivial emptyCache "Quantum Plumber"
    (get_internal_job_data envTrivial "Quantum Plumber") emptyCache rfl⟩
